import Mathlib

/-!
# Verification of the `postcss-color-mod-function` core

A shallow embedding, in Lean 4, of the color model and the `color-mod()`
interpreter of the repository (sources: `src/index.cjs.js` and
`src/lib/transform.js`, which bundle the same design; the bundled
`index.cjs.js` is the authoritative copy and line references below point
into it).  JavaScript numbers are modelled as exact rationals (`ℚ`);
`Math.pow(x, 2.4)`, used only by the luminance formula, is kept as an
explicit function parameter `p24` since its values are transcendental.
External dependencies (`postcss-value-parser`'s `unit`, and the
colorspace conversions of `@csstools/convert-colors`) are modelled from
the specification, as marked on each such definition.
-/

namespace ColorMod

/-! ## JavaScript numeric primitives -/

/-- Truncation toward zero, as JavaScript's number-to-integer steps use. -/
def jsTrunc (q : ℚ) : ℤ := if 0 ≤ q then ⌊q⌋ else ⌈q⌉

/-- The JavaScript remainder operator `a % b`: the result carries the sign
of the dividend (`-10 % 360 = -10`). -/
def jsMod (a b : ℚ) : ℚ := a - b * (jsTrunc (a / b) : ℚ)

/-- `Math.round`: round to the nearest integer, half toward positive
infinity. -/
def jsRound (q : ℚ) : ℤ := ⌊q + 1/2⌋

/-- `Math.round(q * 10000000000) / 10000000000`, the ten-decimal-digit
rounding used by the stringifiers (`src/index.cjs.js` lines 814-859). -/
def round10 (q : ℚ) : ℚ := (jsRound (q * 10000000000) : ℚ) / 10000000000

/-! ## Tokens

The node tree handed to the core by `postcss-value-parser` (an external
collaborator, §6 of the specification): every node has a `type` and a
`value`, and `function` nodes carry a child list.  `string`/`unicode-range`
node kinds never reach the color logic and are not modelled. -/

inductive Token where
  | word (value : String)
  | func (value : String) (nodes : List Token)
  | div (value : String)
  | space
  | comment
deriving Repr

/-- The `value` field of a node. -/
def Token.value : Token → String
  | .word v => v
  | .func v _ => v
  | .div v => v
  | .space => " "
  | .comment => ""

/-- The `nodes` field: present on `function` nodes only; reading it on any
other node yields JavaScript `undefined`. -/
def Token.getNodes : Token → Option (List Token)
  | .func _ ns => some ns
  | _ => none

/-- `node.nodes || []` as used by the argument matcher. -/
def Token.nodesOrNil (t : Token) : List Token := (t.getNodes).getD []

def Token.isSpace : Token → Bool
  | .space => true
  | _ => false

def Token.isComment : Token → Bool
  | .comment => true
  | _ => false

/-! ## `parser.unit` (modelled)

Modelled from the spec: `postcss-value-parser`'s `unit` function is an
external collaborator (§1, §6: "tokenizing raw CSS text ... is external").
It splits a word into a leading signed decimal number and a trailing unit,
returning failure when the word does not begin with a number.  Scientific
notation is not used by any input of this development and is omitted. -/

def digitVal (c : Char) : ℕ := c.toNat - '0'.toNat

def natOfDigits (ds : List Char) : ℕ := ds.foldl (fun n c => 10 * n + digitVal c) 0

/-- The character-level part of the scan: the sign, the integer digits,
the fraction digits, and the trailing unit. -/
def parserUnitParts (s : String) : Option (Bool × List Char × List Char × String) :=
  let cs := s.data
  let signNeg : Bool := cs.head? = some '-'
  let cs₁ : List Char :=
    if cs.head? = some '+' ∨ cs.head? = some '-' then cs.tail else cs
  let ints := cs₁.takeWhile Char.isDigit
  let cs₂ := cs₁.dropWhile Char.isDigit
  let dotted : Bool := cs₂.head? = some '.'
  let fracs : List Char := if dotted then cs₂.tail.takeWhile Char.isDigit else []
  let cs₃ : List Char :=
    if dotted = true ∧ ¬ fracs.isEmpty then cs₂.tail.dropWhile Char.isDigit else cs₂
  if ints.isEmpty ∧ fracs.isEmpty then none
  else some (signNeg, ints, fracs, String.mk cs₃)

/-- The numeric value of a scanned word. -/
def assembleNumber (signNeg : Bool) (ints fracs : List Char) : ℚ :=
  let mag : ℚ := (natOfDigits ints : ℚ) + (natOfDigits fracs : ℚ) / ((10 : ℚ) ^ fracs.length)
  if signNeg then -mag else mag

def parserUnit (s : String) : Option (ℚ × String) :=
  (parserUnitParts s).map (fun x => (assembleNumber x.1 x.2.1 x.2.2.1, x.2.2.2))

/-- The parsed number of a word token (`Number(parser.unit(node.value).number)`);
0 when the word holds no number (such reads are guarded by the predicates). -/
def unitNumber (t : Token) : ℚ :=
  match parserUnit t.value with
  | some (n, _) => n
  | none => 0

/-- The parsed unit of a word token; `""` when the word holds no number. -/
def unitString (t : Token) : String :=
  match parserUnit t.value with
  | some (_, u) => u
  | none => ""

/-! ## Hex colors (`convertHtoRGB`, `src/index.cjs.js` lines 371-387) -/

def hexDigitVal : Char → Option ℕ := fun c =>
  if '0' ≤ c ∧ c ≤ '9' then some (c.toNat - '0'.toNat)
  else if 'a' ≤ c ∧ c ≤ 'f' then some (c.toNat - 'a'.toNat + 10)
  else if 'A' ≤ c ∧ c ≤ 'F' then some (c.toNat - 'A'.toNat + 10)
  else none

/-- The `hexColorMatch` regular expression: `#` followed by 3, 4, 6 or 8
hex digits (case-insensitive). -/
def hexColorMatch (s : String) : Bool :=
  match s.data with
  | [] => false
  | c :: rest =>
      if c = '#' then
        rest.all (fun d => (hexDigitVal d).isSome) ∧
          (rest.length = 3 ∨ rest.length = 4 ∨ rest.length = 6 ∨ rest.length = 8)
      else false

def hexByte (c₁ c₂ : Char) : ℚ := (((hexDigitVal c₁).getD 0) * 16 + ((hexDigitVal c₂).getD 0) : ℕ)

/-- `convertHtoRGB`: red, green, blue and alpha on the 0-100 scale.  The
source divides the 0-255 bytes by the literal `2.55`, which this model
takes as the exact rational 51/20 (spec §9 directs exactly this reading). -/
def convertHtoRGB (s : String) : Option (ℚ × ℚ × ℚ × ℚ) :=
  if hexColorMatch s then
    match s.data with
    | _ :: r :: g :: b :: [] =>
        some (hexByte r r / 2.55, hexByte g g / 2.55, hexByte b b / 2.55, (255 : ℚ) / 2.55)
    | _ :: r :: g :: b :: a :: [] =>
        some (hexByte r r / 2.55, hexByte g g / 2.55, hexByte b b / 2.55, hexByte a a / 2.55)
    | _ :: r₁ :: r₂ :: g₁ :: g₂ :: b₁ :: b₂ :: [] =>
        some (hexByte r₁ r₂ / 2.55, hexByte g₁ g₂ / 2.55, hexByte b₁ b₂ / 2.55, (255 : ℚ) / 2.55)
    | _ :: r₁ :: r₂ :: g₁ :: g₂ :: b₁ :: b₂ :: a₁ :: a₂ :: [] =>
        some (hexByte r₁ r₂ / 2.55, hexByte g₁ g₂ / 2.55, hexByte b₁ b₂ / 2.55, hexByte a₁ a₂ / 2.55)
    | _ => none
  else none

/-- The named-color table of `convertNtoRGB` (`src/index.cjs.js` lines 211-365). -/
def colorNames : List (String × ℕ × ℕ × ℕ) := [
  ("aliceblue", 240, 248, 255),
  ("antiquewhite", 250, 235, 215),
  ("aqua", 0, 255, 255),
  ("aquamarine", 127, 255, 212),
  ("azure", 240, 255, 255),
  ("beige", 245, 245, 220),
  ("bisque", 255, 228, 196),
  ("black", 0, 0, 0),
  ("blanchedalmond", 255, 235, 205),
  ("blue", 0, 0, 255),
  ("blueviolet", 138, 43, 226),
  ("brown", 165, 42, 42),
  ("burlywood", 222, 184, 135),
  ("cadetblue", 95, 158, 160),
  ("chartreuse", 127, 255, 0),
  ("chocolate", 210, 105, 30),
  ("coral", 255, 127, 80),
  ("cornflowerblue", 100, 149, 237),
  ("cornsilk", 255, 248, 220),
  ("crimson", 220, 20, 60),
  ("cyan", 0, 255, 255),
  ("darkblue", 0, 0, 139),
  ("darkcyan", 0, 139, 139),
  ("darkgoldenrod", 184, 134, 11),
  ("darkgray", 169, 169, 169),
  ("darkgreen", 0, 100, 0),
  ("darkgrey", 169, 169, 169),
  ("darkkhaki", 189, 183, 107),
  ("darkmagenta", 139, 0, 139),
  ("darkolivegreen", 85, 107, 47),
  ("darkorange", 255, 140, 0),
  ("darkorchid", 153, 50, 204),
  ("darkred", 139, 0, 0),
  ("darksalmon", 233, 150, 122),
  ("darkseagreen", 143, 188, 143),
  ("darkslateblue", 72, 61, 139),
  ("darkslategray", 47, 79, 79),
  ("darkslategrey", 47, 79, 79),
  ("darkturquoise", 0, 206, 209),
  ("darkviolet", 148, 0, 211),
  ("deeppink", 255, 20, 147),
  ("deepskyblue", 0, 191, 255),
  ("dimgray", 105, 105, 105),
  ("dimgrey", 105, 105, 105),
  ("dodgerblue", 30, 144, 255),
  ("firebrick", 178, 34, 34),
  ("floralwhite", 255, 250, 240),
  ("forestgreen", 34, 139, 34),
  ("fuchsia", 255, 0, 255),
  ("gainsboro", 220, 220, 220),
  ("ghostwhite", 248, 248, 255),
  ("gold", 255, 215, 0),
  ("goldenrod", 218, 165, 32),
  ("gray", 128, 128, 128),
  ("green", 0, 128, 0),
  ("greenyellow", 173, 255, 47),
  ("grey", 128, 128, 128),
  ("honeydew", 240, 255, 240),
  ("hotpink", 255, 105, 180),
  ("indianred", 205, 92, 92),
  ("indigo", 75, 0, 130),
  ("ivory", 255, 255, 240),
  ("khaki", 240, 230, 140),
  ("lavender", 230, 230, 250),
  ("lavenderblush", 255, 240, 245),
  ("lawngreen", 124, 252, 0),
  ("lemonchiffon", 255, 250, 205),
  ("lightblue", 173, 216, 230),
  ("lightcoral", 240, 128, 128),
  ("lightcyan", 224, 255, 255),
  ("lightgoldenrodyellow", 250, 250, 210),
  ("lightgray", 211, 211, 211),
  ("lightgreen", 144, 238, 144),
  ("lightgrey", 211, 211, 211),
  ("lightpink", 255, 182, 193),
  ("lightsalmon", 255, 160, 122),
  ("lightseagreen", 32, 178, 170),
  ("lightskyblue", 135, 206, 250),
  ("lightslategray", 119, 136, 153),
  ("lightslategrey", 119, 136, 153),
  ("lightsteelblue", 176, 196, 222),
  ("lightyellow", 255, 255, 224),
  ("lime", 0, 255, 0),
  ("limegreen", 50, 205, 50),
  ("linen", 250, 240, 230),
  ("magenta", 255, 0, 255),
  ("maroon", 128, 0, 0),
  ("mediumaquamarine", 102, 205, 170),
  ("mediumblue", 0, 0, 205),
  ("mediumorchid", 186, 85, 211),
  ("mediumpurple", 147, 112, 219),
  ("mediumseagreen", 60, 179, 113),
  ("mediumslateblue", 123, 104, 238),
  ("mediumspringgreen", 0, 250, 154),
  ("mediumturquoise", 72, 209, 204),
  ("mediumvioletred", 199, 21, 133),
  ("midnightblue", 25, 25, 112),
  ("mintcream", 245, 255, 250),
  ("mistyrose", 255, 228, 225),
  ("moccasin", 255, 228, 181),
  ("navajowhite", 255, 222, 173),
  ("navy", 0, 0, 128),
  ("oldlace", 253, 245, 230),
  ("olive", 128, 128, 0),
  ("olivedrab", 107, 142, 35),
  ("orange", 255, 165, 0),
  ("orangered", 255, 69, 0),
  ("orchid", 218, 112, 214),
  ("palegoldenrod", 238, 232, 170),
  ("palegreen", 152, 251, 152),
  ("paleturquoise", 175, 238, 238),
  ("palevioletred", 219, 112, 147),
  ("papayawhip", 255, 239, 213),
  ("peachpuff", 255, 218, 185),
  ("peru", 205, 133, 63),
  ("pink", 255, 192, 203),
  ("plum", 221, 160, 221),
  ("powderblue", 176, 224, 230),
  ("purple", 128, 0, 128),
  ("rebeccapurple", 102, 51, 153),
  ("red", 255, 0, 0),
  ("rosybrown", 188, 143, 143),
  ("royalblue", 65, 105, 225),
  ("saddlebrown", 139, 69, 19),
  ("salmon", 250, 128, 114),
  ("sandybrown", 244, 164, 96),
  ("seagreen", 46, 139, 87),
  ("seashell", 255, 245, 238),
  ("sienna", 160, 82, 45),
  ("silver", 192, 192, 192),
  ("skyblue", 135, 206, 235),
  ("slateblue", 106, 90, 205),
  ("slategray", 112, 128, 144),
  ("slategrey", 112, 128, 144),
  ("snow", 255, 250, 250),
  ("springgreen", 0, 255, 127),
  ("steelblue", 70, 130, 180),
  ("tan", 210, 180, 140),
  ("teal", 0, 128, 128),
  ("thistle", 216, 191, 216),
  ("tomato", 255, 99, 71),
  ("transparent", 0, 0, 0),
  ("turquoise", 64, 224, 208),
  ("violet", 238, 130, 238),
  ("wheat", 245, 222, 179),
  ("white", 255, 255, 255),
  ("whitesmoke", 245, 245, 245),
  ("yellow", 255, 255, 0),
  ("yellowgreen", 154, 205, 50)
]

/-- `convertNtoRGB`: look the name up (case-sensitively, as JavaScript
property access does) and scale each byte by the exact `2.55`. -/
def convertNtoRGB (name : String) : Option (ℚ × ℚ × ℚ) :=
  (colorNames.find? (fun e => e.1 = name)).map
    (fun e => ((e.2.1 : ℚ) / 2.55, (e.2.2.1 : ℚ) / 2.55, (e.2.2.2 : ℚ) / 2.55))

/-! ## The color value

The `Color` class stores a loose property bag with a `colorspace` tag; the
bag always holds the channels of its tagged space, a hue, and an alpha.  A
bag whose `hue` key is absent behaves as hue 0 in every later read (the
`|| 0` fallbacks and the default fallback of `rgb2hue`), so the model
stores 0 for an absent hue. -/

inductive RawColor where
  | rgb (red green blue hue alpha : ℚ)
  | hsl (hue saturation lightness alpha : ℚ)
  | hwb (hue whiteness blackness alpha : ℚ)
deriving DecidableEq, Repr

namespace RawColor

def alphaQ : RawColor → ℚ
  | .rgb _ _ _ _ a => a
  | .hsl _ _ _ a => a
  | .hwb _ _ _ a => a

def hueQ : RawColor → ℚ
  | .rgb _ _ _ h _ => h
  | .hsl h _ _ _ => h
  | .hwb h _ _ _ => h

def redQ : RawColor → ℚ
  | .rgb r _ _ _ _ => r
  | _ => 0

def greenQ : RawColor → ℚ
  | .rgb _ g _ _ _ => g
  | _ => 0

def blueQ : RawColor → ℚ
  | .rgb _ _ b _ _ => b
  | _ => 0

def satQ : RawColor → ℚ
  | .hsl _ s _ _ => s
  | _ => 0

def lightQ : RawColor → ℚ
  | .hsl _ _ l _ => l
  | _ => 0

def whiteQ : RawColor → ℚ
  | .hwb _ w _ _ => w
  | _ => 0

def blackQ : RawColor → ℚ
  | .hwb _ _ b _ => b
  | _ => 0

end RawColor

/-! ## Colorspace conversions (modelled)

Modelled from the spec: the conversion functions live in the external
`@csstools/convert-colors` dependency; §4.1 states they are "pure
functions of channel values, matching the CSS Color specification's
formulas exactly", with all channels on the 0-100 scale, hue on 0-360, and
`rgb2hue` taking a fallback hue returned for achromatic inputs. -/

def rgb2hue (r g b fallbackhue : ℚ) : ℚ :=
  let M := max r (max g b)
  let m := min r (min g b)
  let d := M - m
  if d = 0 then fallbackhue
  else
    let h₀ := if M = r then (g - b) / d else if M = g then 2 + (b - r) / d else 4 + (r - g) / d
    let h := h₀ * 60
    if h < 0 then h + 360 else h

def rgb2hsl (r g b fallbackhue : ℚ) : ℚ × ℚ × ℚ :=
  let M := max r (max g b)
  let m := min r (min g b)
  let d := M - m
  let hue := rgb2hue r g b fallbackhue
  let lightness := (M + m) / 2
  let saturation := if d = 0 then 0 else d / (100 - |2 * lightness - 100|) * 100
  (hue, saturation, lightness)

def hue2rgbChannel (t₁ t₂ hue : ℚ) : ℚ :=
  let h := if hue < 0 then hue + 360 else if 360 ≤ hue then hue - 360 else hue
  if h < 60 then t₁ + (t₂ - t₁) * h / 60
  else if h < 180 then t₂
  else if h < 240 then t₁ + (t₂ - t₁) * (240 - h) / 60
  else t₁

def hsl2rgb (h s l : ℚ) : ℚ × ℚ × ℚ :=
  let t₂ := if l ≤ 50 then l * (s + 100) / 100 else l + s - l * s / 100
  let t₁ := 2 * l - t₂
  (hue2rgbChannel t₁ t₂ (h + 120), hue2rgbChannel t₁ t₂ h, hue2rgbChannel t₁ t₂ (h - 120))

def rgb2hwb (r g b fallbackhue : ℚ) : ℚ × ℚ × ℚ :=
  (rgb2hue r g b fallbackhue, min r (min g b), 100 - max r (max g b))

def hwb2rgb (h w bl : ℚ) : ℚ × ℚ × ℚ :=
  match hsl2rgb h 100 50 with
  | (r, g, b) =>
    (r * (100 - w - bl) / 100 + w, g * (100 - w - bl) / 100 + w, b * (100 - w - bl) / 100 + w)

def hsl2hwb (h s l : ℚ) : ℚ × ℚ × ℚ :=
  match hsl2rgb h s l with
  | (r, g, b) => (h, min r (min g b), 100 - max r (max g b))

def hwb2hsl (h w bl : ℚ) : ℚ × ℚ × ℚ :=
  match hwb2rgb h w bl with
  | (r, g, b) => rgb2hsl r g b h

/-! ## `color2rgb` / `color2hsl` / `color2hwb`
(`src/index.cjs.js` lines 647-675b: each keeps the alpha, and `color2rgb`
carries the stored hue along unmodified) -/

def color2rgb : RawColor → RawColor
  | .rgb r g b h a => .rgb r g b h a
  | .hsl h s l a => match hsl2rgb h s l with
    | (r, g, b) => .rgb r g b h a
  | .hwb h w bl a => match hwb2rgb h w bl with
    | (r, g, b) => .rgb r g b h a

def color2hsl : RawColor → RawColor
  | .rgb r g b h a => match rgb2hsl r g b h with
    | (hue, s, l) => .hsl hue s l a
  | .hsl h s l a => .hsl h s l a
  | .hwb h w bl a => match hwb2hsl h w bl with
    | (hue, s, l) => .hsl hue s l a

def color2hwb : RawColor → RawColor
  | .rgb r g b h a => match rgb2hwb r g b h with
    | (hue, w, bl) => .hwb hue w bl a
  | .hsl h s l a => match hsl2hwb h s l with
    | (hue, w, bl) => .hwb hue w bl a
  | .hwb h w bl a => .hwb h w bl a

/-! ## `normalize` and the channel setters
(`src/index.cjs.js` lines 604-642) -/

/-- `normalize(value, channel)`: hue is first reduced with the JavaScript
`%` operator, every channel is then clamped between 0 and its maximum
(360 for hue, 100 otherwise). -/
def normalize (value : ℚ) (channel : String) : ℚ :=
  let channelIsHue := channel = "hue"
  min (max (if channelIsHue then jsMod value 360 else value) 0)
    (if channelIsHue then (360 : ℚ) else 100)

/-- The `Color` constructor applied to a bag whose `colorspace` key is
present (`src/index.cjs.js` lines 390-406): when the bag is tagged `rgb`
the hue is refreshed with `rgb2hue`, the bag's own hue (0 when absent)
serving as the achromatic fallback. -/
def mkColor : RawColor → RawColor
  | .rgb r g b h a => .rgb r g b (rgb2hue r g b h) a
  | c => c

/-- `new Color({red, green, blue, alpha})` as built by `transformHexColor`:
the bag carries no `colorspace` key, but `this.color` aliases the bag, so
the derived `rgb` tag written by the constructor is visible to the guard
`color.colorspace === 'rgb'` that follows it: the hue refresh runs, with
`color.hue || 0 = 0` as the achromatic fallback. -/
def mkColorNoSpace (r g b a : ℚ) : RawColor := .rgb r g b (rgb2hue r g b 0) a

namespace Color

/-- `Color#alpha(v)`: `assign` on the current bag; alpha is not an RGB
channel, so no hue refresh happens inside `assign`. -/
def alphaSet (c : RawColor) (v : ℚ) : RawColor :=
  mkColor (match c with
    | .rgb r g b h _ => .rgb r g b h (normalize v "alpha")
    | .hsl h s l _ => .hsl h s l (normalize v "alpha")
    | .hwb h w bl _ => .hwb h w bl (normalize v "alpha"))

def alphaGet (c : RawColor) : ℚ := c.alphaQ

/-- `Color#red(v)`: convert to RGB, `assign` the clamped channel, refresh
the hue from the new channels with the previous hue as fallback, and run
the bag back through the constructor. -/
def redSet (c : RawColor) (v : ℚ) : RawColor :=
  match color2rgb c with
  | .rgb _ g b h a =>
      let r := normalize v "red"
      mkColor (.rgb r g b (rgb2hue r g b h) a)
  | c => c

def greenSet (c : RawColor) (v : ℚ) : RawColor :=
  match color2rgb c with
  | .rgb r _ b h a =>
      let g := normalize v "green"
      mkColor (.rgb r g b (rgb2hue r g b h) a)
  | c => c

def blueSet (c : RawColor) (v : ℚ) : RawColor :=
  match color2rgb c with
  | .rgb r g _ h a =>
      let b := normalize v "blue"
      mkColor (.rgb r g b (rgb2hue r g b h) a)
  | c => c

/-- `Color#rgb(r, g, b)`: `assign` walks the three keys in order, clamping
each and refreshing the hue after each RGB write (only the last refresh
survives); the original hue is the fallback each time. -/
def rgbSet (c : RawColor) (vr vg vb : ℚ) : RawColor :=
  match color2rgb c with
  | .rgb _ _ _ h a =>
      let r := normalize vr "red"
      let g := normalize vg "green"
      let b := normalize vb "blue"
      mkColor (.rgb r g b (rgb2hue r g b h) a)
  | c => c

def redGet (c : RawColor) : ℚ := (color2rgb c).redQ
def greenGet (c : RawColor) : ℚ := (color2rgb c).greenQ
def blueGet (c : RawColor) : ℚ := (color2rgb c).blueQ

def hueSet (c : RawColor) (v : ℚ) : RawColor :=
  match color2hsl c with
  | .hsl _ s l a => mkColor (.hsl (normalize v "hue") s l a)
  | c => c

def hueGet (c : RawColor) : ℚ := (color2hsl c).hueQ

def saturationSet (c : RawColor) (v : ℚ) : RawColor :=
  match color2hsl c with
  | .hsl h _ l a => mkColor (.hsl h (normalize v "saturation") l a)
  | c => c

def saturationGet (c : RawColor) : ℚ := (color2hsl c).satQ

def lightnessSet (c : RawColor) (v : ℚ) : RawColor :=
  match color2hsl c with
  | .hsl h s _ a => mkColor (.hsl h s (normalize v "lightness") a)
  | c => c

def lightnessGet (c : RawColor) : ℚ := (color2hsl c).lightQ

def whitenessSet (c : RawColor) (v : ℚ) : RawColor :=
  match color2hwb c with
  | .hwb h _ bl a => mkColor (.hwb h (normalize v "whiteness") bl a)
  | c => c

def whitenessGet (c : RawColor) : ℚ := (color2hwb c).whiteQ

def blacknessSet (c : RawColor) (v : ℚ) : RawColor :=
  match color2hwb c with
  | .hwb h w _ a => mkColor (.hwb h w (normalize v "blackness") a)
  | c => c

def blacknessGet (c : RawColor) : ℚ := (color2hwb c).blackQ

end Color

/-! ## Blending (`blend`, `src/index.cjs.js` lines 552-599) -/

/-- The three colorspace tags a `blend` call distinguishes.  The source
compares the colorspace string with `===` against `'hsl'` and `'hwb'` and
treats every other string as RGB; `spaceOfString` reproduces exactly that
comparison at the call boundary. -/
inductive Colorspace where
  | rgb
  | hsl
  | hwb
deriving DecidableEq, Repr

def spaceOfString (s : String) : Colorspace :=
  if s = "hsl" then .hsl else if s = "hwb" then .hwb else .rgb

/-- `blend(base, color, percentage, colorspace, isBlendingAlpha)`: convert
both colors into the chosen space and interpolate each channel linearly,
`percentage/100` being the weight toward `color`; the alpha is
interpolated only when `isBlendingAlpha`, else the base's alpha is kept.
The RGB result bag carries no `hue` key (stored as 0 here). -/
def blend (base color : RawColor) (percentage : ℚ) (colorspace : Colorspace)
    (isBlendingAlpha : Bool) : RawColor :=
  let addition := percentage / 100
  let subtraction := 1 - addition
  match colorspace with
  | .hsl =>
      let c₁ := color2hsl base
      let c₂ := color2hsl color
      .hsl (c₁.hueQ * subtraction + c₂.hueQ * addition)
        (c₁.satQ * subtraction + c₂.satQ * addition)
        (c₁.lightQ * subtraction + c₂.lightQ * addition)
        (if isBlendingAlpha then c₁.alphaQ * subtraction + c₂.alphaQ * addition else c₁.alphaQ)
  | .hwb =>
      let c₁ := color2hwb base
      let c₂ := color2hwb color
      .hwb (c₁.hueQ * subtraction + c₂.hueQ * addition)
        (c₁.whiteQ * subtraction + c₂.whiteQ * addition)
        (c₁.blackQ * subtraction + c₂.blackQ * addition)
        (if isBlendingAlpha then c₁.alphaQ * subtraction + c₂.alphaQ * addition else c₁.alphaQ)
  | .rgb =>
      let c₁ := color2rgb base
      let c₂ := color2rgb color
      .rgb (c₁.redQ * subtraction + c₂.redQ * addition)
        (c₁.greenQ * subtraction + c₂.greenQ * addition)
        (c₁.blueQ * subtraction + c₂.blueQ * addition)
        0
        (if isBlendingAlpha then c₁.alphaQ * subtraction + c₂.alphaQ * addition else c₁.alphaQ)

namespace Color

/-- `Color#blend`: the raw `blend` bag run back through the constructor. -/
def blendM (base other : RawColor) (percentage : ℚ) (colorspace : Colorspace) : RawColor :=
  mkColor (blend base other percentage colorspace false)

/-- `Color#blenda`: as `blend`, interpolating the alpha too. -/
def blendaM (base other : RawColor) (percentage : ℚ) (colorspace : Colorspace) : RawColor :=
  mkColor (blend base other percentage colorspace true)

/-- `Color#shade(p)`: blend, in RGB space, toward pure black in HWB form.
The shade bag carries no alpha key; `blend` never reads it because
`isBlendingAlpha` is false, so the stored 0 is arbitrary. -/
def shadeM (c : RawColor) (percentage : ℚ) : RawColor :=
  mkColor (blend (color2hwb c) (.hwb 0 0 100 0) percentage .rgb false)

/-- `Color#tint(p)`: blend, in RGB space, toward pure white in HWB form. -/
def tintM (c : RawColor) (percentage : ℚ) : RawColor :=
  mkColor (blend (color2hwb c) (.hwb 0 100 0 0) percentage .rgb false)

end Color

/-! ## Contrast (`src/index.cjs.js` lines 680-770)

`channel2luminance` raises `(value + 0.055)/1.055` to the power 2.4 with
`Math.pow`; that transcendental function is the explicit parameter `p24`
of every definition below. -/

def channel2luminance (p24 : ℚ → ℚ) (value : ℚ) : ℚ :=
  if value ≤ 0.03928 then value / 12.92 else p24 ((value + 0.055) / 1.055)

def rgb2luminance (p24 : ℚ → ℚ) (red green blue : ℚ) : ℚ :=
  0.2126 * channel2luminance p24 red + 0.7152 * channel2luminance p24 green +
    0.0722 * channel2luminance p24 blue

/-- `colors2contrast`: the CSS contrast-ratio formula
`(lighter + 0.05) / (darker + 0.05)` on the two relative luminances. -/
def colors2contrast (p24 : ℚ → ℚ) (color₁ color₂ : RawColor) : ℚ :=
  let rgb₁ := color2rgb color₁
  let rgb₂ := color2rgb color₂
  let l₁ := rgb2luminance p24 rgb₁.redQ rgb₁.greenQ rgb₁.blueQ
  let l₂ := rgb2luminance p24 rgb₂.redQ rgb₂.greenQ rgb₂.blueQ
  if l₂ < l₁ then (l₁ + 0.05) / (l₂ + 0.05) else (l₂ + 0.05) / (l₁ + 0.05)

def RawColor.withWhiteness : RawColor → ℚ → RawColor
  | .hwb h _ bl a, v => .hwb h v bl a
  | c, _ => c

def RawColor.withBlackness : RawColor → ℚ → RawColor
  | .hwb h w _ a, v => .hwb h w v a
  | c, _ => c

/-- The `while` loop of `colors2contrastRatioColor`, with explicit fuel
(`none` = fuel exhausted; the source loop is unbounded).  Guard and body
follow the source: the loop runs while either whiteness or blackness
bounds differ by more than 100, bisecting with `Math.round`. -/
def contrastRatioLoop (p24 : ℚ → ℚ) (hwbC : RawColor) :
    ℕ → ℚ → ℚ → ℚ → ℚ → RawColor → Option RawColor
  | 0, _, _, _, _, _ => none
  | fuel + 1, minW, minB, maxW, maxB, modifiedHWB =>
    if 100 < |minW - maxW| ∨ 100 < |minB - maxB| then
      let midW : ℚ := (jsRound ((maxW + minW) / 2) : ℚ)
      let midB : ℚ := (jsRound ((maxB + minB) / 2) : ℚ)
      let modified := (modifiedHWB.withWhiteness midW).withBlackness midB
      if 4.5 < colors2contrast p24 modified hwbC then
        contrastRatioLoop p24 hwbC fuel minW minB midW midB modified
      else
        contrastRatioLoop p24 hwbC fuel midW midB maxW maxB modified
    else some modifiedHWB

/-- `colors2contrastRatioColor(hwb, maxHWB)`: `modifiedHWB` starts as a
copy of `hwb` and the search bounds start at the two colors' whiteness and
blackness. -/
def colors2contrastRatioColor (p24 : ℚ → ℚ) (fuel : ℕ) (hwbC maxHWB : RawColor) :
    Option RawColor :=
  contrastRatioLoop p24 hwbC fuel hwbC.whiteQ hwbC.blackQ maxHWB.whiteQ maxHWB.blackQ hwbC

/-- `contrast(color, percentage)` (`src/index.cjs.js` lines 680-706). -/
def contrast (p24 : ℚ → ℚ) (fuel : ℕ) (color : RawColor) (percentage : ℚ) :
    Option RawColor :=
  let hwb := color2hwb color
  let rgb := color2rgb color
  let luminance := rgb2luminance p24 rgb.redQ rgb.greenQ rgb.blueQ
  let maxContrastColor : RawColor :=
    if luminance < 0.5 then .hwb hwb.hueQ 100 0 hwb.alphaQ else .hwb hwb.hueQ 0 100 hwb.alphaQ
  let ratioToMax := colors2contrast p24 color maxContrastColor
  let minContrastColor : Option RawColor :=
    if 4.5 < ratioToMax then colors2contrastRatioColor p24 fuel hwb maxContrastColor
    else some maxContrastColor
  minContrastColor.map (fun minC => blend maxContrastColor minC percentage .hwb false)

/-- `Color#contrast`: the raw result run back through the constructor. -/
def Color.contrastM (p24 : ℚ → ℚ) (fuel : ℕ) (c : RawColor) (percentage : ℚ) :
    Option RawColor :=
  (contrast p24 fuel c percentage).map mkColor

/-! ## Number rendering and the stringifiers
(`src/index.cjs.js` lines 780-859)

JavaScript renders the rounded channel values through template strings;
`renderScaled10` reproduces `${n}` for a number that is an exact multiple
of `10^-10` and within the ranges the stringifiers produce (no exponent
notation, trailing zeros of the fraction dropped, integers without a
decimal point). -/

def natStrAux : ℕ → ℕ → List Char
  | 0, _ => []
  | fuel + 1, n =>
    if n < 10 then [Char.ofNat (48 + n)]
    else natStrAux fuel (n / 10) ++ [Char.ofNat (48 + n % 10)]

/-- The decimal digit string of a natural number. -/
def natStr (n : ℕ) : String := String.mk (natStrAux (n + 1) n)

/-- The fractional digits of `m / 10^10` for `0 ≤ m < 10^10`: ten digits,
zero-padded on the left, trailing zeros removed. -/
def fracDigits (m : ℕ) : String :=
  let padded := (natStr (m + 10000000000)).data.drop 1
  String.mk (padded.reverse.dropWhile (fun c => c = '0')).reverse

/-- JavaScript `${x}` for `x = m / 10^10`. -/
def renderScaled10 (m : ℤ) : String :=
  let sign := if m < 0 then "-" else ""
  let n := m.natAbs
  let ip := n / 10000000000
  let fp := n % 10000000000
  if fp = 0 then sign ++ natStr ip else sign ++ natStr ip ++ "." ++ fracDigits fp

/-- Rendering of a ten-decimal-rounded channel value. -/
def renderNum (q : ℚ) : String := renderScaled10 (jsRound (q * 10000000000))

/-- JavaScript `${x}` for an integer. -/
def renderInt (m : ℤ) : String :=
  if m < 0 then "-" ++ natStr m.natAbs else natStr m.natAbs

/-- `color2rgbString` (`src/index.cjs.js` lines 814-825): modern
space-separated form; the alpha slot is omitted exactly when the stored
alpha equals 100 before any rounding. -/
def color2rgbString (color : RawColor) : String :=
  let rgb := color2rgb color
  let isOpaque := rgb.alphaQ = 100
  let red := round10 rgb.redQ
  let green := round10 rgb.greenQ
  let blue := round10 rgb.blueQ
  let alpha := round10 rgb.alphaQ
  "rgb(" ++ renderNum red ++ "% " ++ renderNum green ++ "% " ++ renderNum blue ++ "%" ++
    (if isOpaque then "" else " / " ++ renderNum alpha ++ "%") ++ ")"

/-- `color2rgbLegacyString` (`src/index.cjs.js` lines 833-845): legacy
comma form; channels are rounded to integers on the 0-255 scale, the alpha
is scaled into 0-1 and rounded to ten decimals, and the `rgb`/`rgba` name
and the alpha slot are chosen by exact comparison of the alpha with 100. -/
def color2rgbLegacyString (color : RawColor) : String :=
  let rgb := color2rgb color
  let isOpaque := rgb.alphaQ = 100
  let name := if isOpaque then "rgb" else "rgba"
  let red := jsRound (rgb.redQ * 255 / 100)
  let green := jsRound (rgb.greenQ * 255 / 100)
  let blue := jsRound (rgb.blueQ * 255 / 100)
  let alpha := round10 (rgb.alphaQ / 100)
  name ++ "(" ++ renderInt red ++ ", " ++ renderInt green ++ ", " ++ renderInt blue ++
    (if isOpaque then "" else ", " ++ renderNum alpha) ++ ")"

/-- `color2hslString` (`src/index.cjs.js` lines 788-800): modern
space-separated form.  Saturation, lightness and the alpha are rounded to
ten decimals and rendered by `renderNum`; the HUE is rendered UNROUNDED —
`const hue = hsl.hue` with no `Math.round` — so its template rendering is
the parameter `hr` (modelled from the spec: JavaScript number-to-string
on an arbitrary double is external to this development; on the exact
multiples of `10^-10` the rounded channels produce, it is `renderNum`).
The alpha slot is omitted exactly when the stored alpha equals 100 before
any rounding. -/
def color2hslString (hr : ℚ → String) (color : RawColor) : String :=
  let hsl := color2hsl color
  let isOpaque := hsl.alphaQ = 100
  let hue := hsl.hueQ
  let saturation := round10 hsl.satQ
  let lightness := round10 hsl.lightQ
  let alpha := round10 hsl.alphaQ
  "hsl(" ++ hr hue ++ " " ++ renderNum saturation ++ "% " ++ renderNum lightness ++ "%" ++
    (if isOpaque then "" else " / " ++ renderNum alpha ++ "%") ++ ")"

/-- `color2hwbString` (`src/index.cjs.js` lines 802-812): modern
space-separated form; whiteness, blackness and alpha rounded to ten
decimals, the hue rendered unrounded by `hr`, alpha slot by exact
comparison with 100. -/
def color2hwbString (hr : ℚ → String) (color : RawColor) : String :=
  let hwb := color2hwb color
  let isOpaque := hwb.alphaQ = 100
  let hue := hwb.hueQ
  let whiteness := round10 hwb.whiteQ
  let blackness := round10 hwb.blackQ
  let alpha := round10 hwb.alphaQ
  "hwb(" ++ hr hue ++ " " ++ renderNum whiteness ++ "% " ++ renderNum blackness ++ "%" ++
    (if isOpaque then "" else " / " ++ renderNum alpha ++ "%") ++ ")"

/-- `color2hslLegacyString` (`src/index.cjs.js` lines 847-859): legacy
comma form; saturation and lightness rounded to ten decimals, the alpha
scaled into 0-1 and rounded to ten decimals, the hue rendered unrounded
by `hr`, and the `hsl`/`hsla` name and the alpha slot chosen by exact
comparison of the stored alpha with 100. -/
def color2hslLegacyString (hr : ℚ → String) (color : RawColor) : String :=
  let hsl := color2hsl color
  let isOpaque := hsl.alphaQ = 100
  let name := if isOpaque then "hsl" else "hsla"
  let hue := hsl.hueQ
  let saturation := round10 hsl.satQ
  let lightness := round10 hsl.lightQ
  let alpha := round10 (hsl.alphaQ / 100)
  name ++ "(" ++ hr hue ++ ", " ++ renderNum saturation ++ "%, " ++
    renderNum lightness ++ "%" ++
    (if isOpaque then "" else ", " ++ renderNum alpha) ++ ")"

/-! ## The unresolved-handling policy and its effect monad

`manageUnresolved` (`src/index.cjs.js` lines 861-867) either raises an
error (`throw`), records a positioned warning and returns `undefined`
(`warn`), or silently returns `undefined` (`ignore`).  A run of any
recognizer is therefore an exception (`Except.error`) or a value together
with the warnings emitted so far, in emission order. -/

inductive Policy where
  | uThrow
  | uWarn
  | uIgnore
deriving DecidableEq, Repr

/-- A warning as `decl.warn(result, message, { word })` records it:
the offending word and the message. -/
abbrev Warning := String × String

inductive CMErr where
  /-- `opts.decl.error(message, { word })` thrown by `manageUnresolved`. -/
  | unresolved (word message : String)
  /-- A dynamic JavaScript `TypeError` (reading a property of `undefined`,
  or spreading a non-iterable object). -/
  | jsTypeErr
  /-- Model artifact: recursion fuel exhausted (the source recursion is
  unbounded); never reached at the fuel values the theorems use. -/
  | outOfFuel
deriving DecidableEq, Repr

def Res (α : Type) : Type := Except CMErr (α × List Warning)

instance : Monad Res where
  pure a := Except.ok (a, [])
  bind x f := match x with
    | .error e => .error e
    | .ok (a, w) => match f a with
      | .error e => .error e
      | .ok (b, w') => .ok (b, w ++ w')

theorem Res.pure_def {α : Type} (a : α) : (pure a : Res α) = Except.ok (a, []) := rfl

theorem Res.bind_def {α β : Type} (x : Res α) (f : α → Res β) :
    x >>= f = match x with
      | .error e => .error e
      | .ok (a, w) => match f a with
        | .error e => .error e
        | .ok (b, w') => .ok (b, w ++ w') := rfl

theorem Res.ok_bind {α β : Type} (a : α) (w : List Warning) (f : α → Res β) :
    @Bind.bind Res _ α β (Except.ok (a, w)) f = match f a with
      | .error e => .error e
      | .ok (b, w') => .ok (b, w ++ w') := rfl

theorem Res.err_bind {α β : Type} (e : CMErr) (f : α → Res β) :
    @Bind.bind Res _ α β (Except.error e) f = .error e := rfl

def manageUnresolved (α : Type) (pol : Policy) (word message : String) : Res (Option α) :=
  match pol with
  | .uWarn => Except.ok (none, [(word, message)])
  | .uIgnore => Except.ok (none, [])
  | .uThrow => Except.error (.unresolved word message)

/-! ## Matchers (`src/index.cjs.js` lines 1617-1636) -/

/-- `toLowerCase()` on the ASCII names this interpreter compares. -/
def toLowerStr (s : String) : String := String.mk (s.data.map Char.toLower)

def alphaMatch (s : String) : Bool := toLowerStr s = "a" ∨ toLowerStr s = "alpha"
def alphaBlueGreenRedMatch (s : String) : Bool :=
  alphaMatch s ∨ toLowerStr s = "blue" ∨ toLowerStr s = "green" ∨ toLowerStr s = "red"
def blacknessLightnessSaturationWhitenessMatch (s : String) : Bool :=
  toLowerStr s = "b" ∨ toLowerStr s = "blackness" ∨ toLowerStr s = "l" ∨ toLowerStr s = "lightness" ∨
    toLowerStr s = "s" ∨ toLowerStr s = "saturation" ∨ toLowerStr s = "w" ∨ toLowerStr s = "whiteness"
def blendMatch (s : String) : Bool := toLowerStr s = "blend" ∨ toLowerStr s = "blenda"
def colorModMatch (s : String) : Bool := toLowerStr s = "color-mod"
def colorSpaceMatch (s : String) : Bool :=
  toLowerStr s = "hsl" ∨ toLowerStr s = "hwb" ∨ toLowerStr s = "rgb"
def contrastMatch (s : String) : Bool := toLowerStr s = "contrast"
def hslaMatch (s : String) : Bool := toLowerStr s = "hsl" ∨ toLowerStr s = "hsla"
def hueUnitMatch (s : String) : Bool :=
  toLowerStr s = "" ∨ toLowerStr s = "deg" ∨ toLowerStr s = "grad" ∨ toLowerStr s = "rad" ∨
    toLowerStr s = "turn"
def hueMatch (s : String) : Bool := toLowerStr s = "h" ∨ toLowerStr s = "hue"
def hwbMatch (s : String) : Bool := toLowerStr s = "hwb"
def minusPlusMatch (s : String) : Bool := s = "+" ∨ s = "-"
def minusPlusTimesMatch (s : String) : Bool := s = "*" ∨ s = "+" ∨ s = "-"
def rgbMatch (s : String) : Bool := toLowerStr s = "rgb"
def rgbaMatch (s : String) : Bool := toLowerStr s = "rgb" ∨ toLowerStr s = "rgba"
def shadeTintMatch (s : String) : Bool := toLowerStr s = "shade" ∨ toLowerStr s = "tint"
def varMatch (s : String) : Bool := toLowerStr s = "var"
def timesMatch (s : String) : Bool := s = "*"

/-! ## Validators (`src/index.cjs.js` lines 1457-1612) -/

def isVariable (t : Token) : Bool :=
  match t with
  | .func v _ => varMatch v
  | _ => false

def isAlphaBlueGreenRedAdjuster (t : Token) : Bool :=
  match t with
  | .func v _ => alphaBlueGreenRedMatch v
  | _ => false

def isRGBAdjuster (t : Token) : Bool :=
  match t with
  | .func v _ => rgbMatch v
  | _ => false

def isHueAdjuster (t : Token) : Bool :=
  match t with
  | .func v _ => hueMatch v
  | _ => false

def isBlacknessLightnessSaturationWhitenessAdjuster (t : Token) : Bool :=
  match t with
  | .func v _ => blacknessLightnessSaturationWhitenessMatch v
  | _ => false

def isShadeTintAdjuster (t : Token) : Bool :=
  match t with
  | .func v _ => shadeTintMatch v
  | _ => false

def isBlendAdjuster (t : Token) : Bool :=
  match t with
  | .func v _ => blendMatch v
  | _ => false

def isContrastAdjuster (t : Token) : Bool :=
  match t with
  | .func v _ => contrastMatch v
  | _ => false

def isRGBFunction (t : Token) : Bool :=
  match t with
  | .func v _ => rgbaMatch v
  | _ => false

def isHSLFunction (t : Token) : Bool :=
  match t with
  | .func v _ => hslaMatch v
  | _ => false

def isHWBFunction (t : Token) : Bool :=
  match t with
  | .func v _ => hwbMatch v
  | _ => false

def isColorModFunction (t : Token) : Bool :=
  match t with
  | .func v _ => colorModMatch v
  | _ => false

def isNamedColor (t : Token) : Bool :=
  match t with
  | .word v => (convertNtoRGB v).isSome
  | _ => false

def isHexColor (t : Token) : Bool :=
  match t with
  | .word v => hexColorMatch v
  | _ => false

def isColorSpace (t : Token) : Bool :=
  match t with
  | .word v => colorSpaceMatch v
  | _ => false

def isHue (t : Token) : Bool :=
  match t with
  | .word v => match parserUnit v with
    | some (_, u) => hueUnitMatch u
    | none => false
  | _ => false

def isComma (t : Token) : Bool :=
  match t with
  | .div v => v = ","
  | _ => false

def isSlash (t : Token) : Bool :=
  match t with
  | .div v => v = "/"
  | _ => false

def isNumber (t : Token) : Bool :=
  match t with
  | .word v => match parserUnit v with
    | some (_, u) => u = ""
    | none => false
  | _ => false

def isMinusPlusOperator (t : Token) : Bool :=
  match t with
  | .word v => minusPlusMatch v
  | _ => false

def isMinusPlusTimesOperator (t : Token) : Bool :=
  match t with
  | .word v => minusPlusTimesMatch v
  | _ => false

def isTimesOperator (t : Token) : Bool :=
  match t with
  | .word v => timesMatch v
  | _ => false

def isPercentage (t : Token) : Bool :=
  match t with
  | .word v => match parserUnit v with
    | some (n, u) => u = "%" ∨ n = 0
    | none => false
  | _ => false

def isWord (t : Token) : Bool :=
  match t with
  | .word _ => true
  | _ => false

/-! ## Hue-angle conversion (`src/index.cjs.js` lines 183-206)

`convertRtoD` divides by `Math.PI`; the model uses the exact rational
value of the IEEE-754 double stored in `Math.PI`. -/

def jsPI : ℚ := 884279719003555 / 281474976710656

def convertDtoD (deg : ℚ) : ℚ := jsMod deg 360
def convertGtoD (grad : ℚ) : ℚ := jsMod (grad * 0.9) 360
def convertRtoD (rad : ℚ) : ℚ := jsMod (rad * 180 / jsPI) 360
def convertTtoD (turn : ℚ) : ℚ := jsMod (turn * 360) 360

/-! ## Matched argument values

A position transform produces a JavaScript value: a number, a string (the
operators and colorspace words), a `Color`, a raw node (`transformNode`),
or a boolean (the `isComma`/`isSlash` predicates used as positions). -/

inductive Val where
  | num (q : ℚ)
  | str (s : String)
  | col (c : RawColor)
  | tok (t : Token)
  | bool (b : Bool)
deriving Repr

def Val.isBool : Val → Bool
  | .bool _ => true
  | _ => false

/-- `Number(x)` on the value kinds the interpreter actually coerces (all
such sites receive numbers). -/
def Val.asNum : Val → ℚ
  | .num q => q
  | _ => 0

def Val.isCol : Val → Bool
  | .col _ => true
  | _ => false

/-- JavaScript `v === s` for a candidate value and a string literal. -/
def Val.isStr (v : Val) (s : String) : Bool :=
  match v with
  | .str t => t = s
  | _ => false

def Val.asCol : Val → RawColor
  | .col c => c
  | _ => .rgb 0 0 0 0 0

/-- A position transform: a token and the active policy to a matched value
or `undefined`. -/
abbrev PosT := Token → Policy → Res (Option Val)

/-- A boolean validator (`isComma`, `isSlash`) used as a pattern position. -/
def predT (p : Token → Bool) : PosT := fun t _ => pure (some (.bool (p t)))

/-! ## Argument transforms (`src/index.cjs.js` lines 1319-1428) -/

def transformColorSpace : PosT := fun node pol =>
  if isColorSpace node then pure (some (.str node.value))
  else manageUnresolved Val pol node.value "Expected a valid color space)"

def transformPercentage : PosT := fun node pol =>
  if isPercentage node then pure (some (.num (unitNumber node)))
  else manageUnresolved Val pol node.value "Expected a valid percentage"

def transformAlpha : PosT := fun node pol =>
  if isNumber node then pure (some (.num (unitNumber node * 100)))
  else if isPercentage node then transformPercentage node pol
  else manageUnresolved Val pol node.value "Expected a valid alpha value)"

def transformRGBNumber : PosT := fun node pol =>
  if isNumber node then pure (some (.num (unitNumber node / 2.55)))
  else manageUnresolved Val pol node.value "Expected a valid RGB value)"

def transformHue : PosT := fun node pol =>
  if isHue node then
    let u := toLowerStr (unitString node)
    if u = "grad" then pure (some (.num (convertGtoD (unitNumber node))))
    else if u = "rad" then pure (some (.num (convertRtoD (unitNumber node))))
    else if u = "turn" then pure (some (.num (convertTtoD (unitNumber node))))
    else pure (some (.num (convertDtoD (unitNumber node))))
  else manageUnresolved Val pol node.value "Expected a valid hue"

def transformMinusPlusOperator : PosT := fun node pol =>
  if isMinusPlusOperator node then pure (some (.str node.value))
  else manageUnresolved Val pol node.value "Expected a plus or minus operator"

def transformTimesOperator : PosT := fun node pol =>
  if isTimesOperator node then pure (some (.str node.value))
  else manageUnresolved Val pol node.value "Expected a times operator"

def transformMinusPlusTimesOperator : PosT := fun node pol =>
  if isMinusPlusTimesOperator node then pure (some (.str node.value))
  else manageUnresolved Val pol node.value "Expected a plus, minus, or times operator"

def transformWord : PosT := fun node pol =>
  if isWord node then pure (some (.str node.value))
  else manageUnresolved Val pol node.value "Expected a valid word"

/-- `transformNode` returns `Object(node)`, never failing. -/
def transformNode : PosT := fun node _ => pure (some (.tok node))

/-- `transformHexColor` as a color recognizer (`src/index.cjs.js`
lines 1045-1056): the bag handed to `new Color` carries no colorspace. -/
def transformHexColor (node : Token) (pol : Policy) : Res (Option RawColor) :=
  if hexColorMatch node.value then
    match convertHtoRGB node.value with
    | some (r, g, b, a) => pure (some (mkColorNoSpace r g b a))
    | none => pure (some (mkColorNoSpace 0 0 0 100))
  else manageUnresolved RawColor pol node.value "Expected a valid hex color"

/-- `transformNamedColor` (`src/index.cjs.js` lines 1059-1070). -/
def transformNamedColor (node : Token) (pol : Policy) : Res (Option RawColor) :=
  if isNamedColor node then
    match convertNtoRGB node.value with
    | some (r, g, b) => pure (some (mkColor (.rgb r g b 0 100)))
    | none => pure (some (mkColor (.rgb 0 0 0 0 100)))
  else manageUnresolved RawColor pol node.value "Expected a valid named-color"

/-- A color recognizer used as a pattern position stores the produced
`Color` object as the matched value. -/
def colorT (f : Token → Policy → Res (Option RawColor)) : PosT := fun t pol => do
  let c? ← f t pol
  pure (c?.map .col)

/-! ## The argument matcher `transformArgsByParams`
(`src/index.cjs.js` lines 1434-1451)

`params.map` applies every candidate pattern positionally to the
space/comment-filtered children, always under the hard-coded
`{ unresolved: 'ignore' }` options object; boolean results are filtered
out of each candidate's value list, the first candidate none of whose
remaining entries is `undefined` is selected, and its values (or `[]`)
are returned. -/

def filterSpaceComment (ns : List Token) : List Token :=
  ns.filter (fun t => ¬ t.isSpace ∧ ¬ t.isComment)

/-- `nodes.map((childNode, index) => typeof param[index] === 'function' ?
param[index](childNode, opts) : undefined)`, sequenced left to right
(head/tail recursion over the children, extensionally the source's
indexed access). -/
def rawApply : List PosT → List Token → Res (List (Option Val))
  | _, [] => pure []
  | [], _ :: ts => do
      let rest ← rawApply [] ts
      pure (none :: rest)
  | f :: fs, t :: ts => do
      let r ← f t .uIgnore
      let rest ← rawApply fs ts
      pure (r :: rest)

/-- `.filter((child) => typeof child !== 'boolean')`: `undefined` entries
survive, boolean values (from validator positions) are dropped. -/
def boolFilter (rs : List (Option Val)) : List (Option Val) :=
  rs.filter (fun r => ! (match r with
    | some v => v.isBool
    | none => false))

def applyParam (p : List PosT) (ns : List Token) : Res (List (Option Val)) := do
  let rs ← rawApply p ns
  pure (boolFilter rs)

def allSome (rs : List (Option Val)) : Bool := rs.all (fun r => r.isSome)

/-- `params.map(...)`: every candidate pattern is applied (JavaScript's
`map` does not short-circuit), in order. -/
def applyParams : List (List PosT) → List Token → Res (List (List (Option Val)))
  | [], _ => pure []
  | p :: ps, ns => do
      let r ← applyParam p ns
      let rest ← applyParams ps ns
      pure (r :: rest)

def transformArgsByParams (node : Token) (params : List (List PosT)) : Res (List Val) := do
  let ns := filterSpaceComment node.nodesOrNil
  let outs ← applyParams params ns
  pure (((outs.filter allSome).head?.getD []).reduceOption)

/-- The value at destructuring position `i` (`undefined` past the end). -/
def argN (vals : List Val) (i : ℕ) : Option Val := vals.get? i

/-- The number at destructuring position `i`. -/
def numAt (vals : List Val) (i : ℕ) : ℚ := ((vals.get? i).map Val.asNum).getD 0

/-! ## Color-function recognizers (`src/index.cjs.js` lines 961-1014) -/

/-- `transformRGBFunction`: four candidate grammars; the bag handed to
`new Color` is tagged `rgb`, so the constructor refreshes the hue. -/
def transformRGBFunction (node : Token) (pol : Policy) : Res (Option RawColor) := do
  let vals ← transformArgsByParams node [
    [transformPercentage, transformPercentage, transformPercentage, predT isSlash, transformAlpha],
    [transformRGBNumber, transformRGBNumber, transformRGBNumber, predT isSlash, transformAlpha],
    [transformPercentage, predT isComma, transformPercentage, predT isComma,
      transformPercentage, predT isComma, transformAlpha],
    [transformRGBNumber, predT isComma, transformRGBNumber, predT isComma,
      transformRGBNumber, predT isComma, transformAlpha]]
  if (argN vals 0).isSome then
    let alpha := ((argN vals 3).map Val.asNum).getD 100
    pure (some (mkColor (.rgb (numAt vals 0) (numAt vals 1) (numAt vals 2) 0 alpha)))
  else manageUnresolved RawColor pol node.value "Expected a valid rgb() function"

def transformHSLFunction (node : Token) (pol : Policy) : Res (Option RawColor) := do
  let vals ← transformArgsByParams node [
    [transformHue, transformPercentage, transformPercentage, predT isSlash, transformAlpha],
    [transformHue, predT isComma, transformPercentage, predT isComma,
      transformPercentage, predT isComma, transformAlpha]]
  if (argN vals 2).isSome then
    let alpha := ((argN vals 3).map Val.asNum).getD 100
    pure (some (RawColor.hsl (numAt vals 0) (numAt vals 1) (numAt vals 2) alpha))
  else manageUnresolved RawColor pol node.value "Expected a valid hsl() function"

def transformHWBFunction (node : Token) (pol : Policy) : Res (Option RawColor) := do
  let vals ← transformArgsByParams node [
    [transformHue, transformPercentage, transformPercentage, predT isSlash, transformAlpha]]
  if (argN vals 2).isSome then
    let alpha := ((argN vals 3).map Val.asNum).getD 100
    pure (some (RawColor.hwb (numAt vals 0) (numAt vals 1) (numAt vals 2) alpha))
  else manageUnresolved RawColor pol node.value "Expected a valid hwb() function"

/-! ## Channel dispatch (`base[channel]()` calls of the adjusters) -/

def channelGet (channel : String) (c : RawColor) : ℚ :=
  if channel = "alpha" then Color.alphaGet c
  else if channel = "red" then Color.redGet c
  else if channel = "green" then Color.greenGet c
  else if channel = "blue" then Color.blueGet c
  else if channel = "blackness" then Color.blacknessGet c
  else if channel = "lightness" then Color.lightnessGet c
  else if channel = "saturation" then Color.saturationGet c
  else if channel = "whiteness" then Color.whitenessGet c
  else if channel = "hue" then Color.hueGet c
  else 0

def channelSet (channel : String) (c : RawColor) (v : ℚ) : RawColor :=
  if channel = "alpha" then Color.alphaSet c v
  else if channel = "red" then Color.redSet c v
  else if channel = "green" then Color.greenSet c v
  else if channel = "blue" then Color.blueSet c v
  else if channel = "blackness" then Color.blacknessSet c v
  else if channel = "lightness" then Color.lightnessSet c v
  else if channel = "saturation" then Color.saturationSet c v
  else if channel = "whiteness" then Color.whitenessSet c v
  else if channel = "hue" then Color.hueSet c v
  else c

/-- `node.value.toLowerCase().replace(alphaMatch, 'alpha')`. -/
def abgrChannelName (v : String) : String :=
  if alphaMatch v then "alpha" else toLowerStr v

/-- The one-letter aliases of the b/l/s/w adjusters. -/
def blswChannelName (v : String) : String :=
  let l := toLowerStr v
  if l = "b" then "blackness"
  else if l = "l" then "lightness"
  else if l = "s" then "saturation"
  else if l = "w" then "whiteness"
  else l

/-! ## Non-recursive adjusters (`src/index.cjs.js` lines 1105-1313)

Each adjuster matches its grammars first and only then dereferences the
accumulating color; a JavaScript `TypeError` (modelled `.jsTypeErr`) fires
when a previous adjuster failed and left the accumulator `undefined`. -/

def transformAlphaBlueGreenRedAdjuster (base? : Option RawColor) (node : Token)
    (pol : Policy) : Res (Option RawColor) := do
  let vals ← transformArgsByParams node (if alphaMatch node.value then
      [[transformMinusPlusOperator, transformAlpha],
       [transformTimesOperator, transformPercentage],
       [transformAlpha]]
    else
      [[transformMinusPlusOperator, transformPercentage],
       [transformMinusPlusOperator, transformRGBNumber],
       [transformTimesOperator, transformPercentage],
       [transformPercentage],
       [transformRGBNumber]])
  match argN vals 0 with
  | none => manageUnresolved RawColor pol node.value "Expected a valid modifier()"
  | some operatorOrValue =>
    match base? with
    | none => Except.error .jsTypeErr
    | some base =>
      let channel := abgrChannelName node.value
      let existingValue := channelGet channel base
      let modifiedValue := match argN vals 1 with
        | some adjustment =>
            if operatorOrValue.isStr "+" then existingValue + adjustment.asNum
            else if operatorOrValue.isStr "-" then existingValue - adjustment.asNum
            else if operatorOrValue.isStr "*" then existingValue * adjustment.asNum
            else adjustment.asNum
        | none => operatorOrValue.asNum
      pure (some (channelSet channel base modifiedValue))

def transformRGBAdjuster (base? : Option RawColor) (node : Token) (pol : Policy) :
    Res (Option RawColor) := do
  let vals ← transformArgsByParams node [
    [transformMinusPlusOperator, transformPercentage, transformPercentage, transformPercentage],
    [transformMinusPlusOperator, transformRGBNumber, transformRGBNumber, transformRGBNumber],
    [transformMinusPlusOperator, colorT transformHexColor],
    [transformTimesOperator, transformPercentage]]
  let arg1 := argN vals 0
  let arg2 := argN vals 1
  if (arg2.map Val.isCol).getD false then
    match base? with
    | none => Except.error .jsTypeErr
    | some base =>
      let c₂ := (arg2.map Val.asCol).getD (.rgb 0 0 0 0 0)
      let plus := (arg1.map (fun v => v.isStr "+")).getD false
      pure (some (Color.rgbSet base
        (if plus then Color.redGet base + Color.redGet c₂ else Color.redGet base - Color.redGet c₂)
        (if plus then Color.greenGet base + Color.greenGet c₂
          else Color.greenGet base - Color.greenGet c₂)
        (if plus then Color.blueGet base + Color.blueGet c₂
          else Color.blueGet base - Color.blueGet c₂)))
  else if (arg1.map (fun v => match v with
      | .str s => minusPlusMatch s
      | _ => false)).getD false then
    match base? with
    | none => Except.error .jsTypeErr
    | some base =>
      let plus := (arg1.map (fun v => v.isStr "+")).getD false
      pure (some (Color.rgbSet base
        (if plus then Color.redGet base + numAt vals 1 else Color.redGet base - numAt vals 1)
        (if plus then Color.greenGet base + numAt vals 2 else Color.greenGet base - numAt vals 2)
        (if plus then Color.blueGet base + numAt vals 3 else Color.blueGet base - numAt vals 3)))
  else if arg1.isSome ∧ arg2.isSome then
    match base? with
    | none => Except.error .jsTypeErr
    | some base =>
      pure (some (Color.rgbSet base
        (Color.redGet base * numAt vals 1)
        (Color.greenGet base * numAt vals 1)
        (Color.blueGet base * numAt vals 1)))
  else manageUnresolved RawColor pol node.value "Expected a valid rgb() adjuster"

def transformContrastAdjuster (p24 : ℚ → ℚ) (fuel : ℕ) (base? : Option RawColor)
    (node : Token) (pol : Policy) : Res (Option RawColor) := do
  let vals ← transformArgsByParams node [[transformPercentage]]
  match argN vals 0 with
  | some percentage =>
    match base? with
    | none => Except.error .jsTypeErr
    | some base =>
      match Color.contrastM p24 fuel base percentage.asNum with
      | some c => pure (some c)
      | none => Except.error .outOfFuel
  | none => manageUnresolved RawColor pol node.value "Expected a valid contrast() adjuster)"

def transformHueAdjuster (base? : Option RawColor) (node : Token) (pol : Policy) :
    Res (Option RawColor) := do
  let vals ← transformArgsByParams node [
    [transformMinusPlusTimesOperator, transformHue],
    [transformHue]]
  match argN vals 0 with
  | none => manageUnresolved RawColor pol node.value "Expected a valid hue() function)"
  | some operatorOrHue =>
    match base? with
    | none => Except.error .jsTypeErr
    | some base =>
      let existingHue := Color.hueGet base
      let modifiedValue := match argN vals 1 with
        | some adjustment =>
            if operatorOrHue.isStr "+" then existingHue + adjustment.asNum
            else if operatorOrHue.isStr "-" then existingHue - adjustment.asNum
            else if operatorOrHue.isStr "*" then existingHue * adjustment.asNum
            else adjustment.asNum
        | none => operatorOrHue.asNum
      pure (some (Color.hueSet base modifiedValue))

def transformBlacknessLightnessSaturationWhitenessAdjuster (base? : Option RawColor)
    (node : Token) (pol : Policy) : Res (Option RawColor) := do
  let channel := blswChannelName node.value
  let vals ← transformArgsByParams node [
    [transformMinusPlusTimesOperator, transformPercentage],
    [transformPercentage]]
  match argN vals 0 with
  | none => manageUnresolved RawColor pol node.value ("Expected a valid " ++ channel ++ "() function)")
  | some operatorOrValue =>
    match base? with
    | none => Except.error .jsTypeErr
    | some base =>
      let existingValue := channelGet channel base
      let modifiedValue := match argN vals 1 with
        | some adjustment =>
            if operatorOrValue.isStr "+" then existingValue + adjustment.asNum
            else if operatorOrValue.isStr "-" then existingValue - adjustment.asNum
            else if operatorOrValue.isStr "*" then existingValue * adjustment.asNum
            else adjustment.asNum
        | none => operatorOrValue.asNum
      pure (some (channelSet channel base modifiedValue))

def transformShadeTintAdjuster (base? : Option RawColor) (node : Token) (pol : Policy) :
    Res (Option RawColor) := do
  let channel := toLowerStr node.value
  let vals ← transformArgsByParams node [[transformPercentage]]
  match argN vals 0 with
  | some percentage =>
    match base? with
    | none => Except.error .jsTypeErr
    | some base =>
      if channel = "shade" then pure (some (Color.shadeM base percentage.asNum))
      else pure (some (Color.tintM base percentage.asNum))
  | none => manageUnresolved RawColor pol node.value ("Expected valid " ++ channel ++ "() arguments")

/-! ## The recursive evaluator

`transformColor` can reach itself again through a nested `color-mod()` or
through the color position of a `blend()` adjuster; the recursion is
bounded with explicit fuel (each hop consumes one unit; every theorem uses
a fuel large enough for its input).  The blend pattern's color position is
specialized in `blendRawApply`, which replays `transformArgsByParams` for
the one pattern `[transformColor, transformPercentage, transformColorSpace]`. -/

mutual

def transformColor (p24 : ℚ → ℚ) (fuel : ℕ) (node : Token) (pol : Policy) :
    Res (Option RawColor) :=
  match fuel with
  | 0 => Except.error .outOfFuel
  | fuel + 1 =>
    if isRGBFunction node then transformRGBFunction node pol
    else if isHSLFunction node then transformHSLFunction node pol
    else if isHWBFunction node then transformHWBFunction node pol
    else if isColorModFunction node then transformColorModFunction p24 fuel node pol
    else if isHexColor node then transformHexColor node pol
    else if isNamedColor node then transformNamedColor node pol
    else manageUnresolved RawColor pol node.value "Expected a color"

def transformColorModFunction (p24 : ℚ → ℚ) (fuel : ℕ) (node : Token) (pol : Policy) :
    Res (Option RawColor) :=
  match fuel with
  | 0 => Except.error .outOfFuel
  | fuel + 1 =>
    match node.nodesOrNil with
    | [] => manageUnresolved RawColor pol node.value "Expected a valid color-mod() function"
    | colorOrHueNode :: adjusterNodes => do
      let color? ←
        if isHue colorOrHueNode then do
          let h ← transformHue colorOrHueNode pol
          pure (some (RawColor.hsl ((h.map Val.asNum).getD 0) 100 50 100))
        else transformColor p24 fuel colorOrHueNode pol
      match color? with
      | some color => transformColorByAdjusters p24 fuel (some color) adjusterNodes pol
      | none => manageUnresolved RawColor pol node.value "Expected a valid color"

def transformColorByAdjusters (p24 : ℚ → ℚ) (fuel : ℕ) (base? : Option RawColor)
    (adjusterNodes : List Token) (pol : Policy) : Res (Option RawColor) :=
  match fuel with
  | 0 => Except.error .outOfFuel
  | fuel + 1 => foldAdjusters p24 fuel base? (filterSpaceComment adjusterNodes) pol

def foldAdjusters (p24 : ℚ → ℚ) (fuel : ℕ) (base? : Option RawColor)
    (nodes : List Token) (pol : Policy) : Res (Option RawColor) :=
  match fuel with
  | 0 => Except.error .outOfFuel
  | fuel + 1 =>
    match nodes with
    | [] => pure base?
    | node :: rest => do
      let next? ←
        if isAlphaBlueGreenRedAdjuster node then
          transformAlphaBlueGreenRedAdjuster base? node pol
        else if isRGBAdjuster node then transformRGBAdjuster base? node pol
        else if isHueAdjuster node then transformHueAdjuster base? node pol
        else if isBlacknessLightnessSaturationWhitenessAdjuster node then
          transformBlacknessLightnessSaturationWhitenessAdjuster base? node pol
        else if isShadeTintAdjuster node then transformShadeTintAdjuster base? node pol
        else if isBlendAdjuster node then
          transformBlendAdjuster p24 fuel base? node (node.value = "blenda") pol
        else if isContrastAdjuster node then
          transformContrastAdjuster p24 fuel base? node pol
        else do
          let _ ← manageUnresolved RawColor pol node.value "Expected a valid color adjuster"
          pure base?
      foldAdjusters p24 fuel next? rest pol

def transformBlendAdjuster (p24 : ℚ → ℚ) (fuel : ℕ) (base? : Option RawColor)
    (node : Token) (isAlphaBlend : Bool) (pol : Policy) : Res (Option RawColor) :=
  match fuel with
  | 0 => Except.error .outOfFuel
  | fuel + 1 => do
    let ns := filterSpaceComment node.nodesOrNil
    let rs ← blendRawApply p24 fuel 0 ns
    let filtered := boolFilter rs
    let vals := if allSome filtered then filtered.reduceOption else []
    match argN vals 1 with
    | some percentage =>
      match base? with
      | none => Except.error .jsTypeErr
      | some base =>
        let c := ((argN vals 0).map Val.asCol).getD (.rgb 0 0 0 0 0)
        let colorspace := spaceOfString (((argN vals 2).map (fun v => match v with
          | .str s => s
          | _ => "rgb")).getD "rgb")
        pure (some (if isAlphaBlend then Color.blendaM base c percentage.asNum colorspace
          else Color.blendM base c percentage.asNum colorspace))
    | none => manageUnresolved RawColor pol node.value "Expected a valid blend() adjuster)"

def blendRawApply (p24 : ℚ → ℚ) (fuel : ℕ) (pos : ℕ) (ns : List Token) :
    Res (List (Option Val)) :=
  match fuel with
  | 0 => Except.error .outOfFuel
  | fuel + 1 =>
    match ns with
    | [] => pure []
    | t :: ts => do
      let r ← match pos with
        | 0 => do
            let c? ← transformColor p24 fuel t .uIgnore
            pure (c?.map Val.col)
        | 1 => transformPercentage t .uIgnore
        | 2 => transformColorSpace t .uIgnore
        | _ => pure none
      let rest ← blendRawApply p24 fuel (pos + 1) ts
      pure (r :: rest)

end

/-! ## Variable resolution (`transformVariables`,
`src/lib/transform.js` lines 37-73)

The walk visits each node; a `var()` node is matched against the single
pattern `[transformWord, isComma, transformNode]`.  A known property is
inlined (itself recursively expanded first when its text loosely contains
`var(`); an unknown property with a fallback enters the fallback branch,
whose guard reads `.nodes` of the fallback token — a `TypeError` for a
word fallback — and whose splice spreads the non-iterable token
`fallbackNode.nodes[0].nodes[0]` — a `TypeError` whenever the guard
passes.  Inserted replacement nodes are not re-walked here (the source's
live `splice`-during-walk re-visits parts of them, a difference no input
of this development can observe). -/

mutual

def stringify1 : Token → String
  | .word v => v
  | .div v => v
  | .space => " "
  | .comment => ""
  | .func v ns => v ++ "(" ++ stringifyList ns ++ ")"

def stringifyList : List Token → String
  | [] => ""
  | t :: ts => stringify1 t ++ stringifyList ts

end

def isWordChar (c : Char) : Bool := c.isAlpha ∨ c.isDigit ∨ c = '_'

def startsWithVarParen : List Char → Bool
  | c₁ :: c₂ :: c₃ :: c₄ :: _ => c₁ = 'v' ∧ c₂ = 'a' ∧ c₃ = 'r' ∧ c₄ = '('
  | _ => false

/-- The `looseVarMatch` regular expression `(^|[^\w-])var\(` (on the
lowercased text). -/
def looseVarAux : Bool → List Char → Bool
  | _, [] => false
  | ok, c :: rest =>
      (ok && startsWithVarParen (c :: rest)) || looseVarAux (! (isWordChar c || c = '-')) rest

def looseVarTest (s : String) : Bool := looseVarAux true (toLowerStr s).data

def transformVariables (fuel : ℕ) (table : List (String × List Token)) (ns : List Token) :
    Res (List Token) :=
  match fuel with
  | 0 => Except.error .outOfFuel
  | fuel + 1 =>
    match ns with
    | [] => pure []
    | child :: rest => do
      let repl ←
        if isVariable child then do
          let vals ← transformArgsByParams child [[transformWord, predT isComma, transformNode]]
          let prop? : Option String := match argN vals 0 with
            | some (.str s) => some s
            | _ => none
          let fallback? : Option Token := match argN vals 1 with
            | some (.tok t) => some t
            | _ => none
          match prop?.bind (fun p => (table.find? (fun e => e.1 = p)).map (fun e => e.2)) with
          | some value => do
              let expanded ←
                if looseVarTest (stringifyList value) then transformVariables fuel table value
                else pure value
              pure expanded
          | none =>
            match fallback? with
            | some fallbackNode =>
              match fallbackNode.getNodes with
              | none => Except.error .jsTypeErr
              | some fns =>
                if fns.length = 1 then
                  match fns.head?.bind Token.getNodes with
                  | none => Except.error .jsTypeErr
                  | some gns =>
                    if gns.length ≠ 0 then do
                      let _ ← transformVariables fuel table fns
                      Except.error .jsTypeErr
                    else pure [child]
                else pure [child]
            | none => pure [child]
        else
          match child with
          | .func v cs => do
              let cs' ← transformVariables fuel table cs
              pure [Token.func v cs']
          | t => pure [t]
      let rest' ← transformVariables fuel table rest
      pure (repl ++ rest')

/-! ## The AST walker (`transformAST`, `src/lib/transform.js` lines 10-32,
bundled at `src/index.cjs.js` lines 874-896) -/

structure TransformOpts where
  unresolved : Policy
  stringifier : RawColor → String
  transformVars : Bool
  customProperties : List (String × List Token)

def transformASTNodes (p24 : ℚ → ℚ) (fuel : ℕ) (opts : TransformOpts) (ns : List Token) :
    Res (List Token) :=
  match fuel with
  | 0 => Except.error .outOfFuel
  | fuel + 1 =>
    match ns with
    | [] => pure []
    | child :: rest => do
      let child' ←
        if isColorModFunction child then do
          let child₁ ←
            if opts.transformVars then
              match child with
              | .func v cs => do
                  let cs' ← transformVariables fuel opts.customProperties cs
                  pure (Token.func v cs')
              | t => pure t
            else pure child
          let color? ← transformColorModFunction p24 fuel child₁ opts.unresolved
          match color? with
          | some color => pure (Token.word (opts.stringifier color))
          | none => pure child₁
        else
          match child with
          | .func v cs =>
              if cs.length ≠ 0 then do
                let cs' ← transformASTNodes p24 fuel opts cs
                pure (Token.func v cs')
              else pure child
          | t => pure t
      let rest' ← transformASTNodes p24 fuel opts rest
      pure (child' :: rest')

/-- `transformAST` on the parsed root (a bare node list in
`postcss-value-parser`, modelled as a `func` wrapper). -/
def transformAST (p24 : ℚ → ℚ) (fuel : ℕ) (opts : TransformOpts) (node : Token) : Res Token :=
  match node with
  | .func v ns => do
      let ns' ← transformASTNodes p24 fuel opts ns
      pure (Token.func v ns')
  | t => pure t

/-! ## A pure view of the argument matcher

`transformArgsByParams` hard-codes `{ unresolved: 'ignore' }` for every
position transform; a transform is *ignore-silent* when, under that
policy, it neither throws nor warns.  Every transform of this interpreter
is ignore-silent (their only effect channel is `manageUnresolved`), and
under that condition the matcher coincides with the pure first-match
function `firstMatchVals` below, written to the specification's wording. -/

def pureAt (f : PosT) (t : Token) : Option Val :=
  match f t .uIgnore with
  | .ok (v, _) => v
  | .error _ => none

def SilentT (f : PosT) : Prop :=
  ∀ t, ∃ v, f t .uIgnore = Except.ok (v, ([] : List Warning))

def rawApplySpec : List PosT → List Token → List (Option Val)
  | _, [] => []
  | [], _ :: ts => none :: rawApplySpec [] ts
  | f :: fs, t :: ts => pureAt f t :: rawApplySpec fs ts

/-- A candidate pattern matches when, after the boolean filter, no
position produced `undefined`. -/
def matchesSpec (p : List PosT) (ns : List Token) : Bool :=
  allSome (boolFilter (rawApplySpec p ns))

/-- The specification's contract: the values of the first matching
candidate, the empty list when none matches. -/
def firstMatchVals (params : List (List PosT)) (ns : List Token) : List Val :=
  match params.find? (fun p => matchesSpec p ns) with
  | some p => (boolFilter (rawApplySpec p ns)).reduceOption
  | none => []

theorem rawApply_silent (p : List PosT) (ns : List Token) (h : ∀ f ∈ p, SilentT f) :
    rawApply p ns = Except.ok (rawApplySpec p ns, []) := by
  induction ns generalizing p with
  | nil => cases p <;> rfl
  | cons t ts ih =>
    cases p with
    | nil =>
      have hrec := ih [] (by intro f hf; cases hf)
      show (rawApply [] ts >>= fun rest => pure (none :: rest)) = _
      rw [hrec]
      rfl
    | cons f fs =>
      obtain ⟨v, hv⟩ := h f (List.mem_cons_self f fs) t
      have hrec := ih fs (by intro g hg; exact h g (List.mem_cons_of_mem f hg))
      show (f t .uIgnore >>= fun r => rawApply fs ts >>= fun rest => pure (r :: rest)) = _
      rw [hv, Res.ok_bind, hrec, Res.ok_bind]
      simp [rawApplySpec, pureAt, hv, Res.pure_def]

theorem applyParam_silent (p : List PosT) (ns : List Token) (h : ∀ f ∈ p, SilentT f) :
    applyParam p ns = Except.ok (boolFilter (rawApplySpec p ns), []) := by
  show (rawApply p ns >>= fun rs => pure (boolFilter rs)) = _
  rw [rawApply_silent p ns h]
  rfl

theorem applyParams_silent (params : List (List PosT)) (ns : List Token)
    (h : ∀ p ∈ params, ∀ f ∈ p, SilentT f) :
    applyParams params ns
      = Except.ok (params.map (fun p => boolFilter (rawApplySpec p ns)), []) := by
  induction params with
  | nil => rfl
  | cons p ps ih =>
    show (applyParam p ns >>= fun r => applyParams ps ns >>= fun rest => pure (r :: rest)) = _
    rw [applyParam_silent p ns (h p (List.mem_cons_self p ps)), Res.ok_bind,
      ih (by intro q hq; exact h q (List.mem_cons_of_mem p hq)), Res.ok_bind]
    simp [Res.pure_def]

theorem selection_eq_firstMatch (params : List (List PosT)) (ns : List Token) :
    ((((params.map (fun p => boolFilter (rawApplySpec p ns))).filter allSome).head?.getD
      []).reduceOption) = firstMatchVals params ns := by
  induction params with
  | nil => rfl
  | cons p ps ih =>
    by_cases hm : matchesSpec p ns
    · simp only [List.map_cons, List.filter_cons]
      rw [show allSome (boolFilter (rawApplySpec p ns)) = true from hm]
      simp only [firstMatchVals, List.find?_cons, hm]
      rfl
    · simp only [List.map_cons, List.filter_cons]
      rw [show allSome (boolFilter (rawApplySpec p ns)) = matchesSpec p ns from rfl,
        Bool.eq_false_iff.mpr hm]
      simp only [firstMatchVals, List.find?_cons, Bool.eq_false_iff.mpr hm] at ih ⊢
      rw [if_neg (by simp [Bool.eq_false_iff.mpr hm])]
      exact ih

/-- The argument matcher, under ignore-silent transforms, never throws,
never warns, and returns exactly the first-match values. -/
theorem transformArgsByParams_silent (node : Token) (params : List (List PosT))
    (h : ∀ p ∈ params, ∀ f ∈ p, SilentT f) :
    transformArgsByParams node params
      = Except.ok (firstMatchVals params (filterSpaceComment node.nodesOrNil), []) := by
  show (applyParams params (filterSpaceComment node.nodesOrNil) >>= fun outs =>
    pure (((outs.filter allSome).head?.getD []).reduceOption)) = _
  rw [applyParams_silent params _ h, Res.ok_bind]
  simp only [Res.pure_def, List.nil_append]
  rw [selection_eq_firstMatch]

/-! ### Ignore-silence of the concrete transforms -/

theorem silent_predT (p : Token → Bool) : SilentT (predT p) := fun _ => ⟨_, rfl⟩

theorem silent_transformPercentage : SilentT transformPercentage := by
  intro t
  unfold transformPercentage
  split
  · exact ⟨_, rfl⟩
  · exact ⟨none, rfl⟩

theorem silent_transformAlpha : SilentT transformAlpha := by
  intro t
  unfold transformAlpha
  split
  · exact ⟨_, rfl⟩
  · split
    · exact silent_transformPercentage t
    · exact ⟨none, rfl⟩

theorem silent_transformRGBNumber : SilentT transformRGBNumber := by
  intro t
  unfold transformRGBNumber
  split
  · exact ⟨_, rfl⟩
  · exact ⟨none, rfl⟩

theorem silent_transformHue : SilentT transformHue := by
  intro t
  unfold transformHue
  split
  · dsimp only
    split_ifs <;> exact ⟨_, rfl⟩
  · exact ⟨none, rfl⟩

theorem silent_transformMinusPlusOperator : SilentT transformMinusPlusOperator := by
  intro t
  unfold transformMinusPlusOperator
  split
  · exact ⟨_, rfl⟩
  · exact ⟨none, rfl⟩

theorem silent_transformTimesOperator : SilentT transformTimesOperator := by
  intro t
  unfold transformTimesOperator
  split
  · exact ⟨_, rfl⟩
  · exact ⟨none, rfl⟩

theorem silent_transformMinusPlusTimesOperator : SilentT transformMinusPlusTimesOperator := by
  intro t
  unfold transformMinusPlusTimesOperator
  split
  · exact ⟨_, rfl⟩
  · exact ⟨none, rfl⟩

theorem silent_transformColorSpace : SilentT transformColorSpace := by
  intro t
  unfold transformColorSpace
  split
  · exact ⟨_, rfl⟩
  · exact ⟨none, rfl⟩

theorem silent_transformWord : SilentT transformWord := by
  intro t
  unfold transformWord
  split
  · exact ⟨_, rfl⟩
  · exact ⟨none, rfl⟩

theorem silent_transformNode : SilentT transformNode := fun _ => ⟨_, rfl⟩

theorem silent_transformHexColor (t : Token) :
    ∃ v, transformHexColor t .uIgnore = Except.ok (v, ([] : List Warning)) := by
  unfold transformHexColor
  split
  · split <;> exact ⟨_, rfl⟩
  · exact ⟨none, rfl⟩

theorem silent_colorT_transformHexColor : SilentT (colorT transformHexColor) := by
  intro t
  obtain ⟨v, hv⟩ := silent_transformHexColor t
  refine ⟨v.map Val.col, ?_⟩
  show (transformHexColor t .uIgnore >>= fun c? => pure (c?.map Val.col)) = _
  rw [hv]
  rfl

/-! ## Clamping facts -/

theorem clamp_nonneg (v : ℚ) : 0 ≤ min (max v 0) 100 :=
  le_min (le_max_right v 0) (by norm_num)

theorem clamp_le_100 (v : ℚ) : min (max v 0) 100 ≤ 100 := min_le_right _ _

theorem clamp_of_nonpos {v : ℚ} (h : v ≤ 0) : min (max v 0) 100 = 0 := by
  rw [max_eq_right h]
  norm_num

theorem clamp_of_ge_100 {v : ℚ} (h : 100 ≤ v) : min (max v 0) 100 = 100 := by
  rw [max_eq_left (by linarith), min_eq_right h]

theorem normalize_eq_clamp (v : ℚ) (ch : String) (h : ¬ ch = "hue") :
    normalize v ch = min (max v 0) 100 := by
  simp [normalize, h]

theorem normalize_hue_eq (v : ℚ) :
    normalize v "hue" = min (max (jsMod v 360) 0) 360 := by
  simp [normalize]

theorem parserUnit_concrete {s : String} {sgn : Bool} {ints fracs : List Char} {u : String}
    {q : ℚ} (h₁ : parserUnitParts s = some (sgn, ints, fracs, u))
    (h₂ : assembleNumber sgn ints fracs = q) :
    parserUnit s = some (q, u) := by
  simp [parserUnit, h₁, h₂]

theorem unitNumber_concrete {s : String} {q : ℚ} {u : String}
    (h : parserUnit s = some (q, u)) : unitNumber (Token.word s) = q := by
  simp [unitNumber, Token.value, h]

theorem jsMod_concrete {a b m : ℚ} {k : ℤ} (hpos : 0 ≤ a / b) (hk : ⌊a / b⌋ = k)
    (hm : a - b * (k : ℚ) = m) : jsMod a b = m := by
  rw [jsMod, jsTrunc, if_pos hpos, hk, hm]

theorem jsMod_concrete_neg {a b m : ℚ} {k : ℤ} (hneg : ¬ 0 ≤ a / b) (hk : ⌈a / b⌉ = k)
    (hm : a - b * (k : ℚ) = m) : jsMod a b = m := by
  rw [jsMod, jsTrunc, if_neg hneg, hk, hm]

theorem normalize_hue_concrete {v m : ℚ} (hm : jsMod v 360 = m) (h₀ : 0 ≤ m)
    (h₁ : m ≤ 360) : normalize v "hue" = m := by
  rw [normalize_hue_eq, hm, max_eq_left h₀, min_eq_left h₁]

theorem normalize_hue_nonpos {v m : ℚ} (hm : jsMod v 360 = m) (h : m ≤ 0) :
    normalize v "hue" = 0 := by
  rw [normalize_hue_eq, hm, max_eq_right h]
  norm_num

theorem hueSet_hsl_eval {h s l a v w : ℚ} (hw : normalize v "hue" = w) :
    Color.hueSet (RawColor.hsl h s l a) v = RawColor.hsl w s l a := by
  simp [Color.hueSet, color2hsl, mkColor, hw]

/-! ## Channel-setter characterizations -/

theorem alphaSet_alphaQ (c : RawColor) (v : ℚ) :
    (Color.alphaSet c v).alphaQ = min (max v 0) 100 := by
  cases c <;>
    simp [Color.alphaSet, mkColor, RawColor.alphaQ, normalize_eq_clamp v "alpha" (by decide)]

theorem redSet_redQ (c : RawColor) (v : ℚ) :
    (Color.redSet c v).redQ = min (max v 0) 100 := by
  have hn := normalize_eq_clamp v "red" (by decide)
  cases c with
  | rgb r g b h a => simp [Color.redSet, color2rgb, mkColor, RawColor.redQ, hn]
  | hsl h s l a =>
    rcases hx : hsl2rgb h s l with ⟨r, g, b⟩
    simp [Color.redSet, color2rgb, hx, mkColor, RawColor.redQ, hn]
  | hwb h w bl a =>
    rcases hx : hwb2rgb h w bl with ⟨r, g, b⟩
    simp [Color.redSet, color2rgb, hx, mkColor, RawColor.redQ, hn]

theorem greenSet_greenQ (c : RawColor) (v : ℚ) :
    (Color.greenSet c v).greenQ = min (max v 0) 100 := by
  have hn := normalize_eq_clamp v "green" (by decide)
  cases c with
  | rgb r g b h a => simp [Color.greenSet, color2rgb, mkColor, RawColor.greenQ, hn]
  | hsl h s l a =>
    rcases hx : hsl2rgb h s l with ⟨r, g, b⟩
    simp [Color.greenSet, color2rgb, hx, mkColor, RawColor.greenQ, hn]
  | hwb h w bl a =>
    rcases hx : hwb2rgb h w bl with ⟨r, g, b⟩
    simp [Color.greenSet, color2rgb, hx, mkColor, RawColor.greenQ, hn]

theorem blueSet_blueQ (c : RawColor) (v : ℚ) :
    (Color.blueSet c v).blueQ = min (max v 0) 100 := by
  have hn := normalize_eq_clamp v "blue" (by decide)
  cases c with
  | rgb r g b h a => simp [Color.blueSet, color2rgb, mkColor, RawColor.blueQ, hn]
  | hsl h s l a =>
    rcases hx : hsl2rgb h s l with ⟨r, g, b⟩
    simp [Color.blueSet, color2rgb, hx, mkColor, RawColor.blueQ, hn]
  | hwb h w bl a =>
    rcases hx : hwb2rgb h w bl with ⟨r, g, b⟩
    simp [Color.blueSet, color2rgb, hx, mkColor, RawColor.blueQ, hn]

theorem rgbSet_channels (c : RawColor) (vr vg vb : ℚ) :
    (Color.rgbSet c vr vg vb).redQ = min (max vr 0) 100 ∧
    (Color.rgbSet c vr vg vb).greenQ = min (max vg 0) 100 ∧
    (Color.rgbSet c vr vg vb).blueQ = min (max vb 0) 100 := by
  have hr := normalize_eq_clamp vr "red" (by decide)
  have hg := normalize_eq_clamp vg "green" (by decide)
  have hb := normalize_eq_clamp vb "blue" (by decide)
  cases c with
  | rgb r g b h a =>
    simp [Color.rgbSet, color2rgb, mkColor, RawColor.redQ, RawColor.greenQ, RawColor.blueQ,
      hr, hg, hb]
  | hsl h s l a =>
    rcases hx : hsl2rgb h s l with ⟨r, g, b⟩
    simp [Color.rgbSet, color2rgb, hx, mkColor, RawColor.redQ, RawColor.greenQ,
      RawColor.blueQ, hr, hg, hb]
  | hwb h w bl a =>
    rcases hx : hwb2rgb h w bl with ⟨r, g, b⟩
    simp [Color.rgbSet, color2rgb, hx, mkColor, RawColor.redQ, RawColor.greenQ,
      RawColor.blueQ, hr, hg, hb]

theorem saturationSet_satQ (c : RawColor) (v : ℚ) :
    (Color.saturationSet c v).satQ = min (max v 0) 100 := by
  have hn := normalize_eq_clamp v "saturation" (by decide)
  cases c with
  | rgb r g b h a =>
    rcases hx : rgb2hsl r g b h with ⟨h', s, l⟩
    simp [Color.saturationSet, color2hsl, hx, mkColor, RawColor.satQ, hn]
  | hsl h s l a => simp [Color.saturationSet, color2hsl, mkColor, RawColor.satQ, hn]
  | hwb h w bl a =>
    rcases hx : hwb2hsl h w bl with ⟨h', s, l⟩
    simp [Color.saturationSet, color2hsl, hx, mkColor, RawColor.satQ, hn]

theorem lightnessSet_lightQ (c : RawColor) (v : ℚ) :
    (Color.lightnessSet c v).lightQ = min (max v 0) 100 := by
  have hn := normalize_eq_clamp v "lightness" (by decide)
  cases c with
  | rgb r g b h a =>
    rcases hx : rgb2hsl r g b h with ⟨h', s, l⟩
    simp [Color.lightnessSet, color2hsl, hx, mkColor, RawColor.lightQ, hn]
  | hsl h s l a => simp [Color.lightnessSet, color2hsl, mkColor, RawColor.lightQ, hn]
  | hwb h w bl a =>
    rcases hx : hwb2hsl h w bl with ⟨h', s, l⟩
    simp [Color.lightnessSet, color2hsl, hx, mkColor, RawColor.lightQ, hn]

theorem whitenessSet_whiteQ (c : RawColor) (v : ℚ) :
    (Color.whitenessSet c v).whiteQ = min (max v 0) 100 := by
  have hn := normalize_eq_clamp v "whiteness" (by decide)
  cases c with
  | rgb r g b h a =>
    rcases hx : rgb2hwb r g b h with ⟨h', w, bl⟩
    simp [Color.whitenessSet, color2hwb, hx, mkColor, RawColor.whiteQ, hn]
  | hsl h s l a =>
    rcases hx : hsl2hwb h s l with ⟨h', w, bl⟩
    simp [Color.whitenessSet, color2hwb, hx, mkColor, RawColor.whiteQ, hn]
  | hwb h w bl a => simp [Color.whitenessSet, color2hwb, mkColor, RawColor.whiteQ, hn]

theorem blacknessSet_blackQ (c : RawColor) (v : ℚ) :
    (Color.blacknessSet c v).blackQ = min (max v 0) 100 := by
  have hn := normalize_eq_clamp v "blackness" (by decide)
  cases c with
  | rgb r g b h a =>
    rcases hx : rgb2hwb r g b h with ⟨h', w, bl⟩
    simp [Color.blacknessSet, color2hwb, hx, mkColor, RawColor.blackQ, hn]
  | hsl h s l a =>
    rcases hx : hsl2hwb h s l with ⟨h', w, bl⟩
    simp [Color.blacknessSet, color2hwb, hx, mkColor, RawColor.blackQ, hn]
  | hwb h w bl a => simp [Color.blacknessSet, color2hwb, mkColor, RawColor.blackQ, hn]

theorem hueSet_hueQ (c : RawColor) (v : ℚ) :
    (Color.hueSet c v).hueQ = min (max (jsMod v 360) 0) 360 := by
  cases c with
  | rgb r g b h a =>
    rcases hx : rgb2hsl r g b h with ⟨h', s, l⟩
    simp [Color.hueSet, color2hsl, hx, mkColor, RawColor.hueQ, normalize_hue_eq]
  | hsl h s l a => simp [Color.hueSet, color2hsl, mkColor, RawColor.hueQ, normalize_hue_eq]
  | hwb h w bl a =>
    rcases hx : hwb2hsl h w bl with ⟨h', s, l⟩
    simp [Color.hueSet, color2hsl, hx, mkColor, RawColor.hueQ, normalize_hue_eq]

/-! ## Nonnegative `jsMod` facts -/

theorem jsMod_nonneg_bounds {v : ℚ} (h : 0 ≤ v) : 0 ≤ jsMod v 360 ∧ jsMod v 360 < 360 := by
  have h360 : (0:ℚ) < 360 := by norm_num
  have hd : (0:ℚ) ≤ v / 360 := div_nonneg h (by norm_num)
  have ht : jsTrunc (v / 360) = ⌊v / 360⌋ := if_pos hd
  have hfr : jsMod v 360 = 360 * Int.fract (v / 360) := by
    rw [jsMod, ht, Int.fract]
    ring
  constructor
  · rw [hfr]
    exact mul_nonneg (by norm_num) (Int.fract_nonneg _)
  · rw [hfr]
    have := Int.fract_lt_one (v / 360)
    nlinarith [Int.fract_lt_one (v / 360)]

/-! ## Claim C2 -/

/-- C2, corrected.  The channel-assignment operations — alpha, red, green,
blue, saturation, lightness, whiteness, blackness, and the three-channel
rgb() — clamp every assigned channel into [0,100]: a value driven below 0
or above 100 is pinned to that boundary, never wrapped and never an error.
The claim additionally asserted this for every constructor and for blend,
blenda, shade, tint and contrast; neither holds: the constructor stores
out-of-range channels untouched, and the blend family interpolates
without clamping, so a percentage outside [0,100] drives channels out of
range (see the counterexample for both). -/
theorem C2_assign_clamps :
    (∀ (c : RawColor) (v : ℚ),
      (Color.alphaSet c v).alphaQ = min (max v 0) 100 ∧
      (Color.redSet c v).redQ = min (max v 0) 100 ∧
      (Color.greenSet c v).greenQ = min (max v 0) 100 ∧
      (Color.blueSet c v).blueQ = min (max v 0) 100 ∧
      (Color.saturationSet c v).satQ = min (max v 0) 100 ∧
      (Color.lightnessSet c v).lightQ = min (max v 0) 100 ∧
      (Color.whitenessSet c v).whiteQ = min (max v 0) 100 ∧
      (Color.blacknessSet c v).blackQ = min (max v 0) 100) ∧
    (∀ (c : RawColor) (vr vg vb : ℚ),
      (Color.rgbSet c vr vg vb).redQ = min (max vr 0) 100 ∧
      (Color.rgbSet c vr vg vb).greenQ = min (max vg 0) 100 ∧
      (Color.rgbSet c vr vg vb).blueQ = min (max vb 0) 100) ∧
    (∀ v : ℚ, 0 ≤ min (max v 0) 100 ∧ min (max v 0) 100 ≤ 100 ∧
      (v ≤ 0 → min (max v 0) 100 = 0) ∧ (100 ≤ v → min (max v 0) 100 = 100)) := by
  refine ⟨fun c v => ⟨alphaSet_alphaQ c v, redSet_redQ c v, greenSet_greenQ c v,
      blueSet_blueQ c v, saturationSet_satQ c v, lightnessSet_lightQ c v,
      whitenessSet_whiteQ c v, blacknessSet_blackQ c v⟩,
    fun c vr vg vb => rgbSet_channels c vr vg vb,
    fun v => ⟨clamp_nonneg v, clamp_le_100 v, fun h => clamp_of_nonpos h,
      fun h => clamp_of_ge_100 h⟩⟩

/-- C2, counterexample: `blend` and the constructor are among the
operations the claim covers, yet blending from black toward white with
percentage 200 produces red channel 200, and the constructor stores the
out-of-range bags of `rgb(200% 0% 0%)` (red 200) and `rgba(0, 0, 0, 5)`
(alpha 5 * 100 = 500) untouched — all outside [0,100]. -/
theorem C2_counterexample :
    (Color.blendM (RawColor.rgb 0 0 0 0 100) (RawColor.rgb 100 100 100 0 100)
        200 .rgb).redQ = 200 ∧
    ¬ (Color.blendM (RawColor.rgb 0 0 0 0 100) (RawColor.rgb 100 100 100 0 100)
        200 .rgb).redQ ≤ 100 ∧
    (mkColor (RawColor.rgb 200 0 0 0 100)).redQ = 200 ∧
    (mkColor (RawColor.rgb 0 0 0 0 500)).alphaQ = 500 := by
  have h : (Color.blendM (RawColor.rgb 0 0 0 0 100) (RawColor.rgb 100 100 100 0 100)
      200 .rgb).redQ = 200 := by
    simp [Color.blendM, blend, color2rgb, mkColor, RawColor.redQ]
    norm_num
  refine ⟨h, ?_⟩
  rw [h]
  refine ⟨by norm_num, ?_, ?_⟩
  · simp [mkColor, RawColor.redQ]
  · simp [mkColor, RawColor.alphaQ]

/-- C2, witness: `alpha(300)` clamps to 100 and `red(-20)` clamps to 0. -/
theorem C2_witness :
    (Color.alphaSet (RawColor.rgb 0 0 0 0 100) 300).alphaQ = 100 ∧
    (Color.redSet (RawColor.rgb 50 0 0 0 100) (-20)).redQ = 0 := by
  constructor
  · rw [(C2_assign_clamps.1 (RawColor.rgb 0 0 0 0 100) 300).1]
    exact (C2_assign_clamps.2.2 300).2.2.2 (by norm_num)
  · rw [(C2_assign_clamps.1 (RawColor.rgb 50 0 0 0 100) (-20)).2.1]
    exact (C2_assign_clamps.2.2 (-20)).2.2.1 (by norm_num)

/-! ## Claim C3 -/

/-- C3, corrected.  A hue assignment stores
`min (max (v % 360) 0) 360` with the JavaScript `%`: a nonnegative
computed value is wrapped into [0,360) exactly as the claim states (and
the claim's two examples hold: `hue(+ 400deg)` on hue 0 gives 40,
`hue(* 2)` on hue 200 gives 40), but a negative computed value is clamped
to 0 rather than wrapped, because the JavaScript remainder is negative
there and `Math.max(·, 0)` pins it (see the counterexample:
`hue(- 10deg)` on hue 0 stores 0, not 350). -/
theorem C3_hue_wrapping :
    (∀ (c : RawColor) (v : ℚ),
      (Color.hueSet c v).hueQ = min (max (jsMod v 360) 0) 360 ∧
      (0 ≤ v → (Color.hueSet c v).hueQ = jsMod v 360 ∧
        0 ≤ (Color.hueSet c v).hueQ ∧ (Color.hueSet c v).hueQ < 360) ∧
      (jsMod v 360 < 0 → (Color.hueSet c v).hueQ = 0)) ∧
    transformHueAdjuster (some (RawColor.hsl 0 100 50 100))
        (.func "hue" [.word "+", .word "400deg"]) .uThrow
      = Except.ok (some (RawColor.hsl 40 100 50 100), []) ∧
    transformHueAdjuster (some (RawColor.hsl 200 100 50 100))
        (.func "hue" [.word "*", .word "2"]) .uThrow
      = Except.ok (some (RawColor.hsl 40 100 50 100), []) := by
  refine ⟨fun c v => ⟨hueSet_hueQ c v, fun hv => ?_, fun hv => ?_⟩, ?_, ?_⟩
  · obtain ⟨h₀, h₁⟩ := jsMod_nonneg_bounds hv
    have he : (Color.hueSet c v).hueQ = jsMod v 360 := by
      rw [hueSet_hueQ, max_eq_left h₀, min_eq_left (le_of_lt h₁)]
    exact ⟨he, he ▸ h₀, he ▸ h₁⟩
  · rw [hueSet_hueQ, max_eq_right (le_of_lt hv)]
    norm_num
  · have h1 : transformHueAdjuster (some (RawColor.hsl 0 100 50 100))
        (.func "hue" [.word "+", .word "400deg"]) .uThrow
        = Except.ok (some (Color.hueSet (RawColor.hsl 0 100 50 100)
            (Color.hueGet (RawColor.hsl 0 100 50 100) +
              convertDtoD (unitNumber (Token.word "400deg")))), []) := rfl
    have hp : parserUnitParts "400deg" = some (false, ['4', '0', '0'], [], "deg") := by
      decide
    have hu : unitNumber (Token.word "400deg") = 400 :=
      unitNumber_concrete (parserUnit_concrete hp (by
        rw [assembleNumber]
        norm_num [show natOfDigits ['4', '0', '0'] = 400 by decide,
          show natOfDigits ([] : List Char) = 0 by decide]))
    have hX : Color.hueGet (RawColor.hsl 0 100 50 100) +
        convertDtoD (unitNumber (Token.word "400deg")) = 40 := by
      rw [hu, show Color.hueGet (RawColor.hsl 0 100 50 100) = 0 from rfl, convertDtoD,
        jsMod_concrete (by norm_num) (show ⌊(400 : ℚ) / 360⌋ = 1 by norm_num)
          (show (400 : ℚ) - 360 * ((1 : ℤ) : ℚ) = 40 by norm_num)]
      norm_num
    rw [h1, hX, hueSet_hsl_eval (normalize_hue_concrete
      (jsMod_concrete (by norm_num) (show ⌊(40 : ℚ) / 360⌋ = 0 by norm_num)
        (show (40 : ℚ) - 360 * ((0 : ℤ) : ℚ) = 40 by norm_num)) (by norm_num) (by norm_num))]
  · have h1 : transformHueAdjuster (some (RawColor.hsl 200 100 50 100))
        (.func "hue" [.word "*", .word "2"]) .uThrow
        = Except.ok (some (Color.hueSet (RawColor.hsl 200 100 50 100)
            (Color.hueGet (RawColor.hsl 200 100 50 100) *
              convertDtoD (unitNumber (Token.word "2")))), []) := rfl
    have hp : parserUnitParts "2" = some (false, ['2'], [], "") := by decide
    have hu : unitNumber (Token.word "2") = 2 :=
      unitNumber_concrete (parserUnit_concrete hp (by
        rw [assembleNumber]
        norm_num [show natOfDigits ['2'] = 2 by decide,
          show natOfDigits ([] : List Char) = 0 by decide]))
    have hX : Color.hueGet (RawColor.hsl 200 100 50 100) *
        convertDtoD (unitNumber (Token.word "2")) = 400 := by
      rw [hu, show Color.hueGet (RawColor.hsl 200 100 50 100) = 200 from rfl, convertDtoD,
        jsMod_concrete (by norm_num) (show ⌊(2 : ℚ) / 360⌋ = 0 by norm_num)
          (show (2 : ℚ) - 360 * ((0 : ℤ) : ℚ) = 2 by norm_num)]
      norm_num
    rw [h1, hX, hueSet_hsl_eval (normalize_hue_concrete
      (jsMod_concrete (by norm_num) (show ⌊(400 : ℚ) / 360⌋ = 1 by norm_num)
        (show (400 : ℚ) - 360 * ((1 : ℤ) : ℚ) = 40 by norm_num)) (by norm_num) (by norm_num))]

/-- C3, counterexample: `hue(- 10deg)` on a color at hue 0 computes -10;
the claim predicts the wrap 350, the code stores the clamp 0. -/
theorem C3_counterexample :
    transformHueAdjuster (some (RawColor.hsl 0 100 50 100))
        (.func "hue" [.word "-", .word "10deg"]) .uThrow
      = Except.ok (some (RawColor.hsl 0 100 50 100), []) ∧ (0 : ℚ) ≠ 350 := by
  constructor
  · have h1 : transformHueAdjuster (some (RawColor.hsl 0 100 50 100))
        (.func "hue" [.word "-", .word "10deg"]) .uThrow
        = Except.ok (some (Color.hueSet (RawColor.hsl 0 100 50 100)
            (Color.hueGet (RawColor.hsl 0 100 50 100) -
              convertDtoD (unitNumber (Token.word "10deg")))), []) := rfl
    have hp : parserUnitParts "10deg" = some (false, ['1', '0'], [], "deg") := by decide
    have hu : unitNumber (Token.word "10deg") = 10 :=
      unitNumber_concrete (parserUnit_concrete hp (by
        rw [assembleNumber]
        norm_num [show natOfDigits ['1', '0'] = 10 by decide,
          show natOfDigits ([] : List Char) = 0 by decide]))
    have hX : Color.hueGet (RawColor.hsl 0 100 50 100) -
        convertDtoD (unitNumber (Token.word "10deg")) = -10 := by
      rw [hu, show Color.hueGet (RawColor.hsl 0 100 50 100) = 0 from rfl, convertDtoD,
        jsMod_concrete (by norm_num) (show ⌊(10 : ℚ) / 360⌋ = 0 by norm_num)
          (show (10 : ℚ) - 360 * ((0 : ℤ) : ℚ) = 10 by norm_num)]
      norm_num
    rw [h1, hX, hueSet_hsl_eval (normalize_hue_nonpos
      (jsMod_concrete_neg (by norm_num) (show ⌈(-10 : ℚ) / 360⌉ = 0 by norm_num)
        (show (-10 : ℚ) - 360 * ((0 : ℤ) : ℚ) = -10 by norm_num)) (by norm_num))]
  · norm_num

/-- C3, witness: the general law instantiated at hue 0 with computed
values -10 (clamped to 0) and 400 (wrapped to 40). -/
theorem C3_witness :
    (Color.hueSet (RawColor.hsl 0 100 50 100) (-10)).hueQ = 0 ∧
    (Color.hueSet (RawColor.hsl 0 100 50 100) 400).hueQ = 40 := by
  constructor
  · exact (C3_hue_wrapping.1 (RawColor.hsl 0 100 50 100) (-10)).2.2
      (by
        rw [jsMod_concrete_neg (by norm_num) (show ⌈(-10 : ℚ) / 360⌉ = 0 by norm_num)
          (show (-10 : ℚ) - 360 * ((0 : ℤ) : ℚ) = -10 by norm_num)]
        norm_num)
  · have h := ((C3_hue_wrapping.1 (RawColor.hsl 0 100 50 100) 400).2.1 (by norm_num)).1
    rw [h]
    rw [jsMod_concrete (by norm_num) (show ⌊(400 : ℚ) / 360⌋ = 1 by norm_num)
      (show (400 : ℚ) - 360 * ((1 : ℤ) : ℚ) = 40 by norm_num)]

/-! ## Claim C7 -/

theorem alphaQ_color2rgb (c : RawColor) : (color2rgb c).alphaQ = c.alphaQ := by
  cases c with
  | rgb r g b h a => rfl
  | hsl h s l a =>
    rcases hx : hsl2rgb h s l with ⟨r, g, b⟩
    simp [color2rgb, hx, RawColor.alphaQ]
  | hwb h w bl a =>
    rcases hx : hwb2rgb h w bl with ⟨r, g, b⟩
    simp [color2rgb, hx, RawColor.alphaQ]

theorem alphaQ_color2hsl (c : RawColor) : (color2hsl c).alphaQ = c.alphaQ := by
  cases c with
  | rgb r g b h a =>
    rcases hx : rgb2hsl r g b h with ⟨h', s, l⟩
    simp [color2hsl, hx, RawColor.alphaQ]
  | hsl h s l a => rfl
  | hwb h w bl a =>
    rcases hx : hwb2hsl h w bl with ⟨h', s, l⟩
    simp [color2hsl, hx, RawColor.alphaQ]

theorem alphaQ_color2hwb (c : RawColor) : (color2hwb c).alphaQ = c.alphaQ := by
  cases c with
  | rgb r g b h a =>
    rcases hx : rgb2hwb r g b h with ⟨h', w, bl⟩
    simp [color2hwb, hx, RawColor.alphaQ]
  | hsl h s l a =>
    rcases hx : hsl2hwb h s l with ⟨h', w, bl⟩
    simp [color2hwb, hx, RawColor.alphaQ]
  | hwb h w bl a => rfl

theorem blend_alphaQ (b o : RawColor) (p : ℚ) (s : Colorspace) (ba : Bool) :
    (blend b o p s ba).alphaQ =
      if ba then b.alphaQ * (1 - p / 100) + o.alphaQ * (p / 100) else b.alphaQ := by
  cases s <;> cases ba
  · exact alphaQ_color2rgb b
  · show (color2rgb b).alphaQ * (1 - p / 100) + (color2rgb o).alphaQ * (p / 100)
      = b.alphaQ * (1 - p / 100) + o.alphaQ * (p / 100)
    rw [alphaQ_color2rgb, alphaQ_color2rgb]
  · exact alphaQ_color2hsl b
  · show (color2hsl b).alphaQ * (1 - p / 100) + (color2hsl o).alphaQ * (p / 100)
      = b.alphaQ * (1 - p / 100) + o.alphaQ * (p / 100)
    rw [alphaQ_color2hsl, alphaQ_color2hsl]
  · exact alphaQ_color2hwb b
  · show (color2hwb b).alphaQ * (1 - p / 100) + (color2hwb o).alphaQ * (p / 100)
      = b.alphaQ * (1 - p / 100) + o.alphaQ * (p / 100)
    rw [alphaQ_color2hwb, alphaQ_color2hwb]

set_option maxHeartbeats 1600000 in
/-- C7, confirmed.  `blend(base, other, percentage, colorspace, blendAlpha)`
interpolates each channel of the chosen colorspace linearly with
`percentage/100` as the weight toward `other`: percentage 0 reproduces the
base's channels (exactly, when the base is already in the chosen space),
percentage 100 reproduces the other color's non-alpha channels, every
channel is an affine function of the percentage, and the alpha is
interpolated exactly when `blendAlpha` is true, the base's alpha being
kept otherwise. -/
theorem C7_blend_linear :
    (∀ (b o : RawColor) (p : ℚ) (s : Colorspace) (ba : Bool),
      (blend b o p s ba).alphaQ =
        (if ba then b.alphaQ * (1 - p / 100) + o.alphaQ * (p / 100) else b.alphaQ)) ∧
    (∀ (r g bl h a : ℚ) (o : RawColor) (ba : Bool),
      (blend (RawColor.rgb r g bl h a) o 0 .rgb ba).redQ = r ∧
      (blend (RawColor.rgb r g bl h a) o 0 .rgb ba).greenQ = g ∧
      (blend (RawColor.rgb r g bl h a) o 0 .rgb ba).blueQ = bl ∧
      (blend (RawColor.rgb r g bl h a) o 0 .rgb ba).alphaQ = a) ∧
    (∀ (h s l a : ℚ) (o : RawColor) (ba : Bool),
      blend (RawColor.hsl h s l a) o 0 .hsl ba = RawColor.hsl h s l a) ∧
    (∀ (h w bl a : ℚ) (o : RawColor) (ba : Bool),
      blend (RawColor.hwb h w bl a) o 0 .hwb ba = RawColor.hwb h w bl a) ∧
    (∀ (bc : RawColor) (r g bl h a : ℚ) (ba : Bool),
      (blend bc (RawColor.rgb r g bl h a) 100 .rgb ba).redQ = r ∧
      (blend bc (RawColor.rgb r g bl h a) 100 .rgb ba).greenQ = g ∧
      (blend bc (RawColor.rgb r g bl h a) 100 .rgb ba).blueQ = bl ∧
      (blend bc (RawColor.rgb r g bl h a) 100 .rgb ba).alphaQ =
        (if ba then a else bc.alphaQ)) ∧
    (∀ (bc : RawColor) (h s l a : ℚ) (ba : Bool),
      (blend bc (RawColor.hsl h s l a) 100 .hsl ba).hueQ = h ∧
      (blend bc (RawColor.hsl h s l a) 100 .hsl ba).satQ = s ∧
      (blend bc (RawColor.hsl h s l a) 100 .hsl ba).lightQ = l ∧
      (blend bc (RawColor.hsl h s l a) 100 .hsl ba).alphaQ = (if ba then a else bc.alphaQ)) ∧
    (∀ (bc : RawColor) (h w bl a : ℚ) (ba : Bool),
      (blend bc (RawColor.hwb h w bl a) 100 .hwb ba).hueQ = h ∧
      (blend bc (RawColor.hwb h w bl a) 100 .hwb ba).whiteQ = w ∧
      (blend bc (RawColor.hwb h w bl a) 100 .hwb ba).blackQ = bl ∧
      (blend bc (RawColor.hwb h w bl a) 100 .hwb ba).alphaQ = (if ba then a else bc.alphaQ)) ∧
    (∀ (b o : RawColor) (p : ℚ) (s : Colorspace) (ba : Bool),
      ∀ chan ∈ [RawColor.redQ, RawColor.greenQ, RawColor.blueQ, RawColor.hueQ,
        RawColor.satQ, RawColor.lightQ, RawColor.whiteQ, RawColor.blackQ, RawColor.alphaQ],
        chan (blend b o p s ba) =
          (1 - p / 100) * chan (blend b o 0 s ba) + (p / 100) * chan (blend b o 100 s ba)) := by
  refine ⟨?_, ?_, ?_, ?_, ?_, ?_, ?_, ?_⟩
  · intro b o p s ba
    exact blend_alphaQ b o p s ba
  · intro r g bl h a o ba
    refine ⟨?_, ?_, ?_, ?_⟩
    · simp [blend, color2rgb, RawColor.redQ]
    · simp [blend, color2rgb, RawColor.greenQ]
    · simp [blend, color2rgb, RawColor.blueQ]
    · rw [blend_alphaQ]
      cases ba
      · rfl
      · show (RawColor.rgb r g bl h a).alphaQ * (1 - 0 / 100) + o.alphaQ * (0 / 100) = a
        show a * (1 - 0 / 100) + o.alphaQ * (0 / 100) = a
        ring
  · intro h s l a o ba
    cases ba <;>
      simp [blend, color2hsl, RawColor.hueQ, RawColor.satQ, RawColor.lightQ, RawColor.alphaQ]
  · intro h w bl a o ba
    cases ba <;>
      simp [blend, color2hwb, RawColor.hueQ, RawColor.whiteQ, RawColor.blackQ, RawColor.alphaQ]
  · intro bc r g bl h a ba
    refine ⟨?_, ?_, ?_, ?_⟩
    · simp [blend, color2rgb, RawColor.redQ]
    · simp [blend, color2rgb, RawColor.greenQ]
    · simp [blend, color2rgb, RawColor.blueQ]
    · rw [blend_alphaQ]
      cases ba
      · rfl
      · show bc.alphaQ * (1 - 100 / 100) + (RawColor.rgb r g bl h a).alphaQ * (100 / 100) = a
        show bc.alphaQ * (1 - 100 / 100) + a * (100 / 100) = a
        ring
  · intro bc h s l a ba
    refine ⟨?_, ?_, ?_, ?_⟩
    · simp [blend, color2hsl, RawColor.hueQ]
    · simp [blend, color2hsl, RawColor.satQ]
    · simp [blend, color2hsl, RawColor.lightQ]
    · rw [blend_alphaQ]
      cases ba
      · rfl
      · show bc.alphaQ * (1 - 100 / 100) + (RawColor.hsl h s l a).alphaQ * (100 / 100) = a
        show bc.alphaQ * (1 - 100 / 100) + a * (100 / 100) = a
        ring
  · intro bc h w bl a ba
    refine ⟨?_, ?_, ?_, ?_⟩
    · simp [blend, color2hwb, RawColor.hueQ]
    · simp [blend, color2hwb, RawColor.whiteQ]
    · simp [blend, color2hwb, RawColor.blackQ]
    · rw [blend_alphaQ]
      cases ba
      · rfl
      · show bc.alphaQ * (1 - 100 / 100) + (RawColor.hwb h w bl a).alphaQ * (100 / 100) = a
        show bc.alphaQ * (1 - 100 / 100) + a * (100 / 100) = a
        ring
  · intro b o p s ba chan hchan
    fin_cases hchan <;> cases s <;> cases ba <;>
      simp [blend, RawColor.redQ, RawColor.greenQ, RawColor.blueQ, RawColor.hueQ,
        RawColor.satQ, RawColor.lightQ, RawColor.whiteQ, RawColor.blackQ,
        RawColor.alphaQ] <;> ring

/-- C7, witness: linearity instantiated on the red channel of an RGB blend
at percentage 50. -/
theorem C7_witness :
    RawColor.redQ (blend (RawColor.rgb 20 0 0 0 100) (RawColor.rgb 60 0 0 0 100) 50 .rgb false)
      = (1 - 50 / 100) *
          RawColor.redQ (blend (RawColor.rgb 20 0 0 0 100) (RawColor.rgb 60 0 0 0 100)
            0 .rgb false) +
        (50 / 100) *
          RawColor.redQ (blend (RawColor.rgb 20 0 0 0 100) (RawColor.rgb 60 0 0 0 100)
            100 .rgb false) :=
  C7_blend_linear.2.2.2.2.2.2.2 (RawColor.rgb 20 0 0 0 100) (RawColor.rgb 60 0 0 0 100)
    50 .rgb false RawColor.redQ (by simp)

/-! ## Claim C8 -/

theorem strData_append (s t : String) : (s ++ t).data = s.data ++ t.data := rfl

theorem digitChar_isDigit (d : ℕ) (h : d < 10) : (Char.ofNat (48 + d)).isDigit := by
  interval_cases d <;> decide

theorem natStrAux_chars (fuel : ℕ) : ∀ (n : ℕ), ∀ ch ∈ natStrAux fuel n, ch.isDigit := by
  induction fuel with
  | zero => intro n ch h; simp [natStrAux] at h
  | succ fuel ih =>
    intro n ch h
    rw [natStrAux] at h
    by_cases hn : n < 10
    · rw [if_pos hn] at h
      simp only [List.mem_singleton] at h
      subst h
      exact digitChar_isDigit n hn
    · rw [if_neg hn] at h
      rcases List.mem_append.mp h with h1 | h1
      · exact ih _ ch h1
      · simp only [List.mem_singleton] at h1
        subst h1
        exact digitChar_isDigit (n % 10) (Nat.mod_lt _ (by norm_num))

theorem natStr_chars (n : ℕ) : ∀ ch ∈ (natStr n).data, ch.isDigit := by
  intro ch h
  exact natStrAux_chars _ _ ch h

theorem fracDigits_chars (m : ℕ) : ∀ ch ∈ (fracDigits m).data, ch.isDigit := by
  intro ch h
  rw [fracDigits] at h
  simp only [List.mem_reverse] at h
  have h1 := (List.dropWhile_sublist _).subset h
  have h2 := List.mem_reverse.mp h1
  have h3 := List.drop_subset _ _ h2
  exact natStr_chars _ ch h3

theorem renderScaled10_chars (m : ℤ) :
    ∀ ch ∈ (renderScaled10 m).data, ch.isDigit ∨ ch = '-' ∨ ch = '.' := by
  intro ch h
  rw [renderScaled10] at h
  by_cases h0 : (m.natAbs % 10000000000 = 0)
  · rw [if_pos h0, strData_append] at h
    rcases List.mem_append.mp h with h1 | h1
    · by_cases hm : m < 0
      · rw [if_pos hm] at h1
        exact Or.inr (Or.inl (by simpa using h1))
      · rw [if_neg hm] at h1
        simp at h1
    · exact Or.inl (natStr_chars _ ch h1)
  · rw [if_neg h0] at h
    simp only [strData_append, List.mem_append] at h
    rcases h with ((h1 | h1) | h1) | h1
    · by_cases hm : m < 0
      · rw [if_pos hm] at h1
        exact Or.inr (Or.inl (by simpa using h1))
      · rw [if_neg hm] at h1
        simp at h1
    · exact Or.inl (natStr_chars _ ch h1)
    · exact Or.inr (Or.inr (by simpa using h1))
    · exact Or.inl (fracDigits_chars _ ch h1)

theorem slash_not_mem_renderNum (q : ℚ) : '/' ∉ (renderNum q).data := by
  intro h
  rcases renderScaled10_chars _ '/' h with h1 | h1 | h1 <;> exact absurd h1 (by decide)

theorem a_not_mem_renderNum (q : ℚ) : 'a' ∉ (renderNum q).data := by
  intro h
  rcases renderScaled10_chars _ 'a' h with h1 | h1 | h1 <;> exact absurd h1 (by decide)

theorem a_not_mem_renderInt (m : ℤ) : 'a' ∉ (renderInt m).data := by
  intro h
  rw [renderInt] at h
  by_cases hm : m < 0
  · rw [if_pos hm, strData_append] at h
    rcases List.mem_append.mp h with h1 | h1
    · exact absurd h1 (by decide)
    · exact absurd (natStr_chars _ 'a' h1) (by decide)
  · rw [if_neg hm] at h
    exact absurd (natStr_chars _ 'a' h) (by decide)

theorem color2rgbString_eq (c : RawColor) :
    color2rgbString c =
      "rgb(" ++ renderNum (round10 (color2rgb c).redQ) ++ "% " ++
        renderNum (round10 (color2rgb c).greenQ) ++ "% " ++
        renderNum (round10 (color2rgb c).blueQ) ++ "%" ++
        (if (color2rgb c).alphaQ = 100 then ""
         else " / " ++ renderNum (round10 (color2rgb c).alphaQ) ++ "%") ++ ")" := rfl

theorem color2rgbLegacyString_eq (c : RawColor) :
    color2rgbLegacyString c =
      (if (color2rgb c).alphaQ = 100 then "rgb" else "rgba") ++ "(" ++
        renderInt (jsRound ((color2rgb c).redQ * 255 / 100)) ++ ", " ++
        renderInt (jsRound ((color2rgb c).greenQ * 255 / 100)) ++ ", " ++
        renderInt (jsRound ((color2rgb c).blueQ * 255 / 100)) ++
        (if (color2rgb c).alphaQ = 100 then ""
         else ", " ++ renderNum (round10 ((color2rgb c).alphaQ / 100))) ++ ")" := rfl

theorem color2hslString_eq (hr : ℚ → String) (c : RawColor) :
    color2hslString hr c =
      "hsl(" ++ hr (color2hsl c).hueQ ++ " " ++
        renderNum (round10 (color2hsl c).satQ) ++ "% " ++
        renderNum (round10 (color2hsl c).lightQ) ++ "%" ++
        (if (color2hsl c).alphaQ = 100 then ""
         else " / " ++ renderNum (round10 (color2hsl c).alphaQ) ++ "%") ++ ")" := rfl

theorem color2hwbString_eq (hr : ℚ → String) (c : RawColor) :
    color2hwbString hr c =
      "hwb(" ++ hr (color2hwb c).hueQ ++ " " ++
        renderNum (round10 (color2hwb c).whiteQ) ++ "% " ++
        renderNum (round10 (color2hwb c).blackQ) ++ "%" ++
        (if (color2hwb c).alphaQ = 100 then ""
         else " / " ++ renderNum (round10 (color2hwb c).alphaQ) ++ "%") ++ ")" := rfl

theorem color2hslLegacyString_eq (hr : ℚ → String) (c : RawColor) :
    color2hslLegacyString hr c =
      (if (color2hsl c).alphaQ = 100 then "hsl" else "hsla") ++ "(" ++
        hr (color2hsl c).hueQ ++ ", " ++
        renderNum (round10 (color2hsl c).satQ) ++ "%, " ++
        renderNum (round10 (color2hsl c).lightQ) ++ "%" ++
        (if (color2hsl c).alphaQ = 100 then ""
         else ", " ++ renderNum (round10 ((color2hsl c).alphaQ / 100))) ++ ")" := rfl

/-- C8, corrected.  The five default stringifiers round the rendered
saturation/lightness/whiteness/blackness/alpha channels (and the modern
rgb channels) to ten decimal digits (`round10`), the legacy red/green/blue
to integers on the 0-255 scale — but the HUE of the hsl/hwb forms is
rendered UNROUNDED: the hue renderer `hr` receives the stored hue itself,
never `round10` of it.  The alpha slot is omitted — with the legacy names
`rgb`/`hsl` rather than `rgba`/`hsla` — exactly when the stored alpha
EQUALS 100 before any rounding, not when it merely rounds to 100: the
slash of a modern alpha slot and the `a` of a legacy name or alpha slot
appear in the output if and only if the color's alpha in the stringifier's
space differs from 100.  `hr` is constrained only to render neither `/`
nor `a`, true of JavaScript number-to-string. -/
theorem C8_stringify_alpha (hr : ℚ → String)
    (hrs : ∀ q : ℚ, '/' ∉ (hr q).data) (hra : ∀ q : ℚ, 'a' ∉ (hr q).data) :
    (∀ c : RawColor,
      color2rgbString c =
        "rgb(" ++ renderNum (round10 (color2rgb c).redQ) ++ "% " ++
          renderNum (round10 (color2rgb c).greenQ) ++ "% " ++
          renderNum (round10 (color2rgb c).blueQ) ++ "%" ++
          (if (color2rgb c).alphaQ = 100 then ""
           else " / " ++ renderNum (round10 (color2rgb c).alphaQ) ++ "%") ++ ")") ∧
    (∀ c : RawColor,
      color2rgbLegacyString c =
        (if (color2rgb c).alphaQ = 100 then "rgb" else "rgba") ++ "(" ++
          renderInt (jsRound ((color2rgb c).redQ * 255 / 100)) ++ ", " ++
          renderInt (jsRound ((color2rgb c).greenQ * 255 / 100)) ++ ", " ++
          renderInt (jsRound ((color2rgb c).blueQ * 255 / 100)) ++
          (if (color2rgb c).alphaQ = 100 then ""
           else ", " ++ renderNum (round10 ((color2rgb c).alphaQ / 100))) ++ ")") ∧
    (∀ c : RawColor, '/' ∈ (color2rgbString c).data ↔ (color2rgb c).alphaQ ≠ 100) ∧
    (∀ c : RawColor, 'a' ∈ (color2rgbLegacyString c).data ↔ (color2rgb c).alphaQ ≠ 100) ∧
    (∀ c : RawColor,
      color2hslString hr c =
        "hsl(" ++ hr (color2hsl c).hueQ ++ " " ++
          renderNum (round10 (color2hsl c).satQ) ++ "% " ++
          renderNum (round10 (color2hsl c).lightQ) ++ "%" ++
          (if (color2hsl c).alphaQ = 100 then ""
           else " / " ++ renderNum (round10 (color2hsl c).alphaQ) ++ "%") ++ ")") ∧
    (∀ c : RawColor,
      color2hwbString hr c =
        "hwb(" ++ hr (color2hwb c).hueQ ++ " " ++
          renderNum (round10 (color2hwb c).whiteQ) ++ "% " ++
          renderNum (round10 (color2hwb c).blackQ) ++ "%" ++
          (if (color2hwb c).alphaQ = 100 then ""
           else " / " ++ renderNum (round10 (color2hwb c).alphaQ) ++ "%") ++ ")") ∧
    (∀ c : RawColor,
      color2hslLegacyString hr c =
        (if (color2hsl c).alphaQ = 100 then "hsl" else "hsla") ++ "(" ++
          hr (color2hsl c).hueQ ++ ", " ++
          renderNum (round10 (color2hsl c).satQ) ++ "%, " ++
          renderNum (round10 (color2hsl c).lightQ) ++ "%" ++
          (if (color2hsl c).alphaQ = 100 then ""
           else ", " ++ renderNum (round10 ((color2hsl c).alphaQ / 100))) ++ ")") ∧
    (∀ c : RawColor, '/' ∈ (color2hslString hr c).data ↔ (color2hsl c).alphaQ ≠ 100) ∧
    (∀ c : RawColor, '/' ∈ (color2hwbString hr c).data ↔ (color2hwb c).alphaQ ≠ 100) ∧
    (∀ c : RawColor,
      'a' ∈ (color2hslLegacyString hr c).data ↔ (color2hsl c).alphaQ ≠ 100) := by
  refine ⟨fun c => color2rgbString_eq c, fun c => color2rgbLegacyString_eq c, ?_, ?_,
    fun c => color2hslString_eq hr c, fun c => color2hwbString_eq hr c,
    fun c => color2hslLegacyString_eq hr c, ?_, ?_, ?_⟩
  · intro c
    by_cases ha : (color2rgb c).alphaQ = 100
    · simp only [ha, ne_eq, not_true_eq_false, iff_false]
      intro h
      rw [color2rgbString_eq, if_pos ha] at h
      simp only [strData_append, List.mem_append] at h
      rcases h with ((((((((h | h) | h) | h) | h) | h) | h) | h) | h) <;>
        first
          | exact absurd h (by decide)
          | exact slash_not_mem_renderNum _ h
    · simp only [ha, ne_eq, not_false_eq_true, iff_true]
      rw [color2rgbString_eq, if_neg ha]
      simp only [strData_append, List.mem_append]
      exact Or.inl (Or.inr (Or.inl (Or.inl (by decide))))
  · intro c
    by_cases ha : (color2rgb c).alphaQ = 100
    · simp only [ha, ne_eq, not_true_eq_false, iff_false]
      intro h
      rw [color2rgbLegacyString_eq] at h
      simp only [if_pos ha] at h
      simp only [strData_append, List.mem_append] at h
      rcases h with ((((((((h | h) | h) | h) | h) | h) | h) | h) | h) <;>
        first
          | exact absurd h (by decide)
          | exact a_not_mem_renderInt _ h
    · simp only [ha, ne_eq, not_false_eq_true, iff_true]
      rw [color2rgbLegacyString_eq]
      simp only [if_neg ha]
      simp only [strData_append, List.mem_append]
      exact Or.inl (Or.inl (Or.inl (Or.inl (Or.inl (Or.inl (Or.inl (Or.inl (by decide))))))))
  · intro c
    by_cases ha : (color2hsl c).alphaQ = 100
    · simp only [ha, ne_eq, not_true_eq_false, iff_false]
      intro h
      rw [color2hslString_eq, if_pos ha] at h
      simp only [strData_append, List.mem_append] at h
      rcases h with ((((((((h | h) | h) | h) | h) | h) | h) | h) | h) <;>
        first
          | exact absurd h (by decide)
          | exact slash_not_mem_renderNum _ h
          | exact hrs _ h
    · simp only [ha, ne_eq, not_false_eq_true, iff_true]
      rw [color2hslString_eq, if_neg ha]
      simp only [strData_append, List.mem_append]
      exact Or.inl (Or.inr (Or.inl (Or.inl (by decide))))
  · intro c
    by_cases ha : (color2hwb c).alphaQ = 100
    · simp only [ha, ne_eq, not_true_eq_false, iff_false]
      intro h
      rw [color2hwbString_eq, if_pos ha] at h
      simp only [strData_append, List.mem_append] at h
      rcases h with ((((((((h | h) | h) | h) | h) | h) | h) | h) | h) <;>
        first
          | exact absurd h (by decide)
          | exact slash_not_mem_renderNum _ h
          | exact hrs _ h
    · simp only [ha, ne_eq, not_false_eq_true, iff_true]
      rw [color2hwbString_eq, if_neg ha]
      simp only [strData_append, List.mem_append]
      exact Or.inl (Or.inr (Or.inl (Or.inl (by decide))))
  · intro c
    by_cases ha : (color2hsl c).alphaQ = 100
    · simp only [ha, ne_eq, not_true_eq_false, iff_false]
      intro h
      rw [color2hslLegacyString_eq] at h
      simp only [if_pos ha] at h
      simp only [strData_append, List.mem_append] at h
      rcases h with (((((((((h | h) | h) | h) | h) | h) | h) | h) | h) | h) <;>
        first
          | exact absurd h (by decide)
          | exact a_not_mem_renderNum _ h
          | exact hra _ h
    · simp only [ha, ne_eq, not_false_eq_true, iff_true]
      rw [color2hslLegacyString_eq]
      simp only [if_neg ha]
      simp only [strData_append, List.mem_append]
      exact Or.inl (Or.inl (Or.inl (Or.inl (Or.inl (Or.inl (Or.inl (Or.inl (Or.inl
        (by decide)))))))))

theorem jsRound_zero : jsRound ((0:ℚ) * 10000000000) = 0 := by
  rw [jsRound]; norm_num

theorem renderNum_zero : renderNum (0:ℚ) = "0" := by
  show renderScaled10 (jsRound ((0:ℚ) * 10000000000)) = "0"
  rw [jsRound_zero]
  decide

theorem renderNum_hundred : renderNum (100:ℚ) = "100" := by
  show renderScaled10 (jsRound ((100:ℚ) * 10000000000)) = "100"
  rw [show jsRound ((100:ℚ) * 10000000000) = 1000000000000 from by rw [jsRound]; norm_num]
  decide

theorem renderNum_one : renderNum (1:ℚ) = "1" := by
  show renderScaled10 (jsRound ((1:ℚ) * 10000000000)) = "1"
  rw [show jsRound ((1:ℚ) * 10000000000) = 10000000000 from by rw [jsRound]; norm_num]
  decide

theorem round10_zero : round10 (0:ℚ) = 0 := by
  rw [round10, jsRound]; norm_num

/-- C8, counterexample.  First, to the "rounds to exactly 100" criterion:
an alpha of `100 - 10^-12` rounds to exactly 100 at ten decimal digits,
yet the stringifiers still render the alpha slot (as `100%` and `1`) and
the legacy forms still use the names `rgba` and `hsla`.  Second, to
"rounds every numeric channel": the hue `1/3` does not survive
ten-decimal rounding, yet the hsl stringifier hands the renderer the raw
`1/3` itself (a renderer distinguishing the two receives the raw value). -/
theorem C8_counterexample :
    round10 (100 - 1/1000000000000 : ℚ) = 100 ∧
    color2rgbString (RawColor.rgb 0 0 0 0 (100 - 1/1000000000000)) =
      "rgb(0% 0% 0% / 100%)" ∧
    color2rgbLegacyString (RawColor.rgb 0 0 0 0 (100 - 1/1000000000000)) =
      "rgba(0, 0, 0, 1)" ∧
    color2hslLegacyString renderNum (RawColor.hsl 0 0 0 (100 - 1/1000000000000)) =
      "hsla(0, 0%, 0%, 1)" ∧
    ¬ (round10 (1/3 : ℚ) = 1/3) ∧
    color2hslString (fun q => if q = 1/3 then "RAW" else "ROUNDED")
      (RawColor.hsl (1/3) 0 0 100) = "hsl(RAW 0% 0%)" := by
  have hq : round10 (100 - 1/1000000000000 : ℚ) = 100 := by
    rw [round10, jsRound]
    norm_num
  have hne : ¬((100 - 1/1000000000000 : ℚ) = 100) := by norm_num
  refine ⟨hq, ?_, ?_, ?_, ?_, ?_⟩
  · rw [color2rgbString_eq]
    simp only [color2rgb, RawColor.redQ, RawColor.greenQ, RawColor.blueQ, RawColor.alphaQ]
    rw [if_neg hne, round10_zero, hq, renderNum_zero, renderNum_hundred]
    rfl
  · rw [color2rgbLegacyString_eq]
    simp only [color2rgb, RawColor.redQ, RawColor.greenQ, RawColor.blueQ, RawColor.alphaQ]
    rw [if_neg hne, if_neg hne]
    rw [show jsRound ((0:ℚ) * 255 / 100) = 0 from by rw [jsRound]; norm_num]
    rw [show round10 ((100 - 1/1000000000000 : ℚ) / 100) = 1 from by
      rw [round10, jsRound]; norm_num]
    rw [renderNum_one]
    rfl
  · rw [color2hslLegacyString_eq]
    simp only [color2hsl, RawColor.hueQ, RawColor.satQ, RawColor.lightQ, RawColor.alphaQ]
    rw [if_neg hne, if_neg hne]
    simp only [round10_zero, renderNum_zero]
    rw [show round10 ((100 - 1/1000000000000 : ℚ) / 100) = 1 from by
      rw [round10, jsRound]; norm_num]
    rw [renderNum_one]
    rfl
  · rw [round10, jsRound]
    norm_num
  · rw [color2hslString_eq]
    simp only [color2hsl, RawColor.hueQ, RawColor.satQ, RawColor.lightQ, RawColor.alphaQ]
    simp only [if_true]
    simp only [round10_zero, renderNum_zero]
    rfl

/-- C8, witness: the hue renderer instantiated at `renderNum`, whose
character set contains neither `/` nor `a`, and the alpha-slot criteria
applied at concrete colors. -/
theorem C8_witness :
    (∀ q : ℚ, '/' ∉ (renderNum q).data) ∧
    (∀ q : ℚ, 'a' ∉ (renderNum q).data) ∧
    ('/' ∈ (color2hslString renderNum (RawColor.hsl 0 100 50 40)).data
      ↔ (color2hsl (RawColor.hsl 0 100 50 40)).alphaQ ≠ 100) ∧
    ('a' ∈ (color2hslLegacyString renderNum (RawColor.hsl 0 100 50 100)).data
      ↔ (color2hsl (RawColor.hsl 0 100 50 100)).alphaQ ≠ 100) ∧
    ('/' ∈ (color2rgbString (RawColor.rgb 0 0 0 0 100)).data
      ↔ (color2rgb (RawColor.rgb 0 0 0 0 100)).alphaQ ≠ 100) :=
  ⟨slash_not_mem_renderNum, a_not_mem_renderNum,
    (C8_stringify_alpha renderNum slash_not_mem_renderNum
      a_not_mem_renderNum).2.2.2.2.2.2.2.1 (RawColor.hsl 0 100 50 40),
    (C8_stringify_alpha renderNum slash_not_mem_renderNum
      a_not_mem_renderNum).2.2.2.2.2.2.2.2.2 (RawColor.hsl 0 100 50 100),
    (C8_stringify_alpha renderNum slash_not_mem_renderNum
      a_not_mem_renderNum).2.2.1 (RawColor.rgb 0 0 0 0 100)⟩

/-! ## Claim C5 -/

/-- C5, corrected.  Under the ignore-silent transforms the interpreter
actually uses, the argument matcher neither throws nor warns (its options
object hard-codes the `ignore` policy), and it returns exactly the values
of the first candidate pattern, in declaration order, all of whose
position-transforms applied to the node's non-space/non-comment children
succeed; when no candidate matches it returns the empty list.  The
converse of the last sentence fails: a matching candidate consisting
solely of validator positions also yields the empty list (see the
counterexample). -/
theorem C5_first_match (node : Token) (params : List (List PosT))
    (h : ∀ p ∈ params, ∀ f ∈ p, SilentT f) :
    transformArgsByParams node params
      = Except.ok (firstMatchVals params (filterSpaceComment node.nodesOrNil), []) ∧
    ((params.find?
        (fun p => matchesSpec p (filterSpaceComment node.nodesOrNil))) = none →
      transformArgsByParams node params = Except.ok ([], [])) := by
  refine ⟨transformArgsByParams_silent node params h, fun hn => ?_⟩
  rw [transformArgsByParams_silent node params h, firstMatchVals, hn]

/-- C5, witness: the single candidate `[predT isComma]` applied to
`f(",")`. -/
theorem C5_witness :
    (∀ p ∈ [[predT isComma]], ∀ f ∈ p, SilentT f) ∧
    (transformArgsByParams (Token.func "f" [Token.div ","]) [[predT isComma]]
        = Except.ok (firstMatchVals [[predT isComma]]
            (filterSpaceComment (Token.func "f" [Token.div ","]).nodesOrNil), []) ∧
      (([[predT isComma]].find?
          (fun p => matchesSpec p
            (filterSpaceComment (Token.func "f" [Token.div ","]).nodesOrNil))) = none →
        transformArgsByParams (Token.func "f" [Token.div ","]) [[predT isComma]]
          = Except.ok ([], []))) := by
  have h : ∀ p ∈ [[predT isComma]], ∀ f ∈ p, SilentT f := by
    intro p hp f hf
    simp only [List.mem_singleton] at hp
    subst hp
    simp only [List.mem_singleton] at hf
    subst hf
    exact silent_predT isComma
  exact ⟨h, C5_first_match (Token.func "f" [Token.div ","]) [[predT isComma]] h⟩

/-- C5, counterexample to "the empty list is returned exactly when no
candidate matches": the all-validator pattern `[predT isComma]` matches
`f(",")` — its one position succeeds — yet the returned value list is
empty, because validator booleans are filtered out. -/
theorem C5_counterexample :
    transformArgsByParams (Token.func "f" [Token.div ","]) [[predT isComma]]
      = Except.ok ([], []) ∧
    matchesSpec [predT isComma]
      (filterSpaceComment (Token.func "f" [Token.div ","]).nodesOrNil) = true :=
  ⟨rfl, rfl⟩

/-! ## Claim C6 -/

theorem allSome_cons_of_false (x : Option Val) (l : List (Option Val))
    (h : allSome (boolFilter l) = false) : allSome (boolFilter (x :: l)) = false := by
  rw [boolFilter, List.filter_cons]
  split_ifs with hx
  · rw [allSome, List.all_cons]
    have h' : (boolFilter l).all (fun r => r.isSome) = false := h
    rw [show (List.filter (fun r => ! (match r with
        | some v => v.isBool
        | none => false)) l) = boolFilter l from rfl, h']
    exact Bool.and_false _
  · exact h

theorem rawApplySpec_take (p : List PosT) (ns : List Token) :
    rawApplySpec p ns = rawApplySpec (p.take ns.length) ns := by
  induction ns generalizing p with
  | nil => cases p <;> rfl
  | cons t ts ih =>
    cases p with
    | nil => rfl
    | cons f fs =>
      show pureAt f t :: rawApplySpec fs ts = pureAt f t :: rawApplySpec (fs.take ts.length) ts
      rw [← ih fs]

theorem matchesSpec_overflow (p : List PosT) (ns : List Token)
    (h : p.length < ns.length) : matchesSpec p ns = false := by
  induction ns generalizing p with
  | nil => simp at h
  | cons t ts ih =>
    cases p with
    | nil =>
      show allSome (boolFilter (none :: rawApplySpec [] ts)) = false
      rw [boolFilter, List.filter_cons, if_pos (by rfl), allSome, List.all_cons]
      exact Bool.false_and _
    | cons f fs =>
      have h' : fs.length < ts.length := by simpa using h
      show allSome (boolFilter (pureAt f t :: rawApplySpec fs ts)) = false
      exact allSome_cons_of_false _ _ (ih fs h')

/-- C6, corrected.  Matching is positional, and whether a candidate
pattern matches depends only on its first `ns.length` positions — trailing
unmatched PATTERN POSITIONS are never consulted, so a pattern with more
positions than children can match.  The original claim's direction is
backwards: trailing extra CHILDREN are consulted — each child beyond the
pattern's length contributes an `undefined` entry — so a call with more
non-space/non-comment children than a pattern has positions never matches
that pattern (see the counterexample). -/
theorem C6_trailing :
    (∀ (p : List PosT) (ns : List Token),
      matchesSpec p ns = matchesSpec (p.take ns.length) ns) ∧
    (∀ (p : List PosT) (ns : List Token), p.length < ns.length →
      matchesSpec p ns = false) := by
  refine ⟨?_, matchesSpec_overflow⟩
  intro p ns
  rw [matchesSpec, matchesSpec, ← rawApplySpec_take]

/-- C6, witness: the second part applied to a one-position pattern and two
children. -/
theorem C6_witness :
    [predT isComma].length < [Token.div ",", Token.div ","].length ∧
    matchesSpec [predT isComma] [Token.div ",", Token.div ","] = false :=
  ⟨by decide, C6_trailing.2 [predT isComma] [Token.div ",", Token.div ","] (by decide)⟩

/-- C6, counterexample to "a call with more than k such children can
still match a k-position pattern": the one-position pattern
`[transformPercentage]` matches the single child `50%` but not the
children `50% 60%`, and the matcher consequently returns no values for
`f(50% 60%)`; a pattern with MORE positions than children, by contrast,
can match (last conjunct). -/
theorem C6_counterexample :
    matchesSpec [transformPercentage] [Token.word "50%"] = true ∧
    matchesSpec [transformPercentage] [Token.word "50%", Token.word "60%"] = false ∧
    transformArgsByParams (Token.func "f" [Token.word "50%", Token.space, Token.word "60%"])
      [[transformPercentage]] = Except.ok ([], []) ∧
    matchesSpec [transformPercentage, predT isComma] [Token.word "50%"] = true :=
  ⟨rfl, rfl, rfl, rfl⟩

/-! ## Claim C10 -/

theorem allSome_boolFilter_none (l : List (Option Val)) :
    allSome (boolFilter (none :: l)) = false := by
  rw [boolFilter, List.filter_cons, if_pos (by rfl), allSome, List.all_cons]
  exact Bool.false_and _

theorem pureAt_percentage {s : String} {P : ℚ} (hp : parserUnit s = some (P, "%")) :
    pureAt transformPercentage (Token.word s) = some (Val.num P) := by
  have hip : isPercentage (Token.word s) = true := by simp [isPercentage, hp]
  rw [pureAt]
  rw [show transformPercentage (Token.word s) .uIgnore = Except.ok (some (Val.num P), []) from by
    show (if isPercentage (Token.word s) then
        pure (some (Val.num (unitNumber (Token.word s))))
      else manageUnresolved Val .uIgnore (Token.word s).value "Expected a valid percentage") = _
    rw [if_pos hip, unitNumber_concrete hp]
    rfl]

theorem matchesSpec_mp_star {s : String} (fs : List PosT) :
    matchesSpec (transformMinusPlusOperator :: fs) [Token.word "*", Token.word s] = false := by
  show allSome (boolFilter (pureAt transformMinusPlusOperator (Token.word "*") ::
    rawApplySpec fs [Token.word s])) = false
  rw [show pureAt transformMinusPlusOperator (Token.word "*") = none from rfl]
  exact allSome_boolFilter_none _

theorem matchesSpec_times_perc {s : String} {P : ℚ} (hp : parserUnit s = some (P, "%")) :
    matchesSpec [transformTimesOperator, transformPercentage]
      [Token.word "*", Token.word s] = true := by
  show allSome (boolFilter [pureAt transformTimesOperator (Token.word "*"),
    pureAt transformPercentage (Token.word s)]) = true
  rw [show pureAt transformTimesOperator (Token.word "*") = some (Val.str "*") from rfl,
    pureAt_percentage hp]
  rfl

theorem vals_times_perc {s : String} {P : ℚ} (hp : parserUnit s = some (P, "%")) :
    (boolFilter (rawApplySpec [transformTimesOperator, transformPercentage]
      [Token.word "*", Token.word s])).reduceOption = [Val.str "*", Val.num P] := by
  show (boolFilter [pureAt transformTimesOperator (Token.word "*"),
    pureAt transformPercentage (Token.word s)]).reduceOption = _
  rw [show pureAt transformTimesOperator (Token.word "*") = some (Val.str "*") from rfl,
    pureAt_percentage hp]
  rfl

theorem abgrTimes {s : String} {P : ℚ} (hp : parserUnit s = some (P, "%"))
    (name : String) (base : RawColor) (pol : Policy) :
    transformAlphaBlueGreenRedAdjuster (some base)
        (Token.func name [Token.word "*", Token.space, Token.word s]) pol
      = Except.ok (some (channelSet (abgrChannelName name) base
          (channelGet (abgrChannelName name) base * P)), []) := by
  unfold transformAlphaBlueGreenRedAdjuster
  simp only [Token.value]
  by_cases halpha : alphaMatch name = true
  case neg =>
    rw [if_neg halpha]
    have hs : ∀ p ∈ [[transformMinusPlusOperator, transformPercentage],
        [transformMinusPlusOperator, transformRGBNumber],
        [transformTimesOperator, transformPercentage],
        [transformPercentage], [transformRGBNumber]], ∀ f ∈ p, SilentT f := by
      intro p hpp f hf
      fin_cases hpp <;> fin_cases hf <;>
        first
          | exact silent_transformMinusPlusOperator
          | exact silent_transformTimesOperator
          | exact silent_transformPercentage
          | exact silent_transformRGBNumber
    rw [transformArgsByParams_silent _ _ hs, Res.ok_bind]
    rw [show filterSpaceComment
        (Token.func name [Token.word "*", Token.space, Token.word s]).nodesOrNil
      = [Token.word "*", Token.word s] from rfl]
    rw [show firstMatchVals [[transformMinusPlusOperator, transformPercentage],
        [transformMinusPlusOperator, transformRGBNumber],
        [transformTimesOperator, transformPercentage],
        [transformPercentage], [transformRGBNumber]]
        [Token.word "*", Token.word s] = [Val.str "*", Val.num P] from by
      rw [firstMatchVals,
        List.find?_cons_of_neg _ (by simp [matchesSpec_mp_star]),
        List.find?_cons_of_neg _ (by simp [matchesSpec_mp_star]),
        List.find?_cons_of_pos _ (by simp [matchesSpec_times_perc hp])]
      exact vals_times_perc hp]
    rfl
  case pos =>
    rw [if_pos halpha]
    have hs : ∀ p ∈ [[transformMinusPlusOperator, transformAlpha],
        [transformTimesOperator, transformPercentage],
        [transformAlpha]], ∀ f ∈ p, SilentT f := by
      intro p hpp f hf
      fin_cases hpp <;> fin_cases hf <;>
        first
          | exact silent_transformMinusPlusOperator
          | exact silent_transformTimesOperator
          | exact silent_transformPercentage
          | exact silent_transformAlpha
    rw [transformArgsByParams_silent _ _ hs, Res.ok_bind]
    rw [show filterSpaceComment
        (Token.func name [Token.word "*", Token.space, Token.word s]).nodesOrNil
      = [Token.word "*", Token.word s] from rfl]
    rw [show firstMatchVals [[transformMinusPlusOperator, transformAlpha],
        [transformTimesOperator, transformPercentage],
        [transformAlpha]] [Token.word "*", Token.word s] = [Val.str "*", Val.num P] from by
      rw [firstMatchVals,
        List.find?_cons_of_neg _ (by simp [matchesSpec_mp_star]),
        List.find?_cons_of_pos _ (by simp [matchesSpec_times_perc hp])]
      exact vals_times_perc hp]
    rfl

theorem matchesSpec_mpt_perc {s : String} {P : ℚ} (hp : parserUnit s = some (P, "%")) :
    matchesSpec [transformMinusPlusTimesOperator, transformPercentage]
      [Token.word "*", Token.word s] = true := by
  show allSome (boolFilter [pureAt transformMinusPlusTimesOperator (Token.word "*"),
    pureAt transformPercentage (Token.word s)]) = true
  rw [show pureAt transformMinusPlusTimesOperator (Token.word "*")
      = some (Val.str "*") from rfl, pureAt_percentage hp]
  rfl

theorem vals_mpt_perc {s : String} {P : ℚ} (hp : parserUnit s = some (P, "%")) :
    (boolFilter (rawApplySpec [transformMinusPlusTimesOperator, transformPercentage]
      [Token.word "*", Token.word s])).reduceOption = [Val.str "*", Val.num P] := by
  show (boolFilter [pureAt transformMinusPlusTimesOperator (Token.word "*"),
    pureAt transformPercentage (Token.word s)]).reduceOption = _
  rw [show pureAt transformMinusPlusTimesOperator (Token.word "*")
      = some (Val.str "*") from rfl, pureAt_percentage hp]
  rfl

theorem blswTimes {s : String} {P : ℚ} (hp : parserUnit s = some (P, "%"))
    (name : String) (base : RawColor) (pol : Policy) :
    transformBlacknessLightnessSaturationWhitenessAdjuster (some base)
        (Token.func name [Token.word "*", Token.space, Token.word s]) pol
      = Except.ok (some (channelSet (blswChannelName name) base
          (channelGet (blswChannelName name) base * P)), []) := by
  unfold transformBlacknessLightnessSaturationWhitenessAdjuster
  simp only [Token.value]
  have hs : ∀ p ∈ [[transformMinusPlusTimesOperator, transformPercentage],
      [transformPercentage]], ∀ f ∈ p, SilentT f := by
    intro p hpp f hf
    fin_cases hpp <;> fin_cases hf <;>
      first
        | exact silent_transformMinusPlusTimesOperator
        | exact silent_transformPercentage
  rw [transformArgsByParams_silent _ _ hs, Res.ok_bind]
  rw [show filterSpaceComment
      (Token.func name [Token.word "*", Token.space, Token.word s]).nodesOrNil
    = [Token.word "*", Token.word s] from rfl]
  rw [show firstMatchVals [[transformMinusPlusTimesOperator, transformPercentage],
      [transformPercentage]] [Token.word "*", Token.word s]
      = [Val.str "*", Val.num P] from by
    rw [firstMatchVals, List.find?_cons_of_pos _ (by simp [matchesSpec_mpt_perc hp])]
    exact vals_mpt_perc hp]
  rfl

theorem rgbTimes {s : String} {P : ℚ} (hp : parserUnit s = some (P, "%"))
    (base : RawColor) (pol : Policy) :
    transformRGBAdjuster (some base)
        (Token.func "rgb" [Token.word "*", Token.space, Token.word s]) pol
      = Except.ok (some (Color.rgbSet base (Color.redGet base * P)
          (Color.greenGet base * P) (Color.blueGet base * P)), []) := by
  unfold transformRGBAdjuster
  have hs : ∀ p ∈ [[transformMinusPlusOperator, transformPercentage,
      transformPercentage, transformPercentage],
      [transformMinusPlusOperator, transformRGBNumber, transformRGBNumber, transformRGBNumber],
      [transformMinusPlusOperator, colorT transformHexColor],
      [transformTimesOperator, transformPercentage]], ∀ f ∈ p, SilentT f := by
    intro p hpp f hf
    fin_cases hpp <;> fin_cases hf <;>
      first
        | exact silent_transformMinusPlusOperator
        | exact silent_transformTimesOperator
        | exact silent_transformPercentage
        | exact silent_transformRGBNumber
        | exact silent_colorT_transformHexColor
  rw [transformArgsByParams_silent _ _ hs, Res.ok_bind]
  rw [show filterSpaceComment
      (Token.func "rgb" [Token.word "*", Token.space, Token.word s]).nodesOrNil
    = [Token.word "*", Token.word s] from rfl]
  rw [show firstMatchVals [[transformMinusPlusOperator, transformPercentage,
      transformPercentage, transformPercentage],
      [transformMinusPlusOperator, transformRGBNumber, transformRGBNumber, transformRGBNumber],
      [transformMinusPlusOperator, colorT transformHexColor],
      [transformTimesOperator, transformPercentage]] [Token.word "*", Token.word s]
      = [Val.str "*", Val.num P] from by
    rw [firstMatchVals,
      List.find?_cons_of_neg _ (by simp [matchesSpec_mp_star]),
      List.find?_cons_of_neg _ (by simp [matchesSpec_mp_star]),
      List.find?_cons_of_neg _ (by simp [matchesSpec_mp_star]),
      List.find?_cons_of_pos _ (by simp [matchesSpec_times_perc hp])]
    exact vals_times_perc hp]
  rfl

/-- C10, confirmed.  In every times-percentage adjuster — `alpha(* P%)`
and the other single-channel modifiers, `b/l/s/w(* P%)`, and `rgb(* P%)`
— the existing channel value is multiplied by the RAW percentage number
`P` (so `* 50%` multiplies by 50, not by 0.5) and only then run through
the constructor's clamp; consequently any non-hue channel whose product
exceeds 100 is stored as exactly 100. -/
theorem C10_times_raw_percentage (s : String) (P : ℚ)
    (hp : parserUnit s = some (P, "%")) :
    (∀ (name : String) (base : RawColor) (pol : Policy),
      transformAlphaBlueGreenRedAdjuster (some base)
          (Token.func name [Token.word "*", Token.space, Token.word s]) pol
        = Except.ok (some (channelSet (abgrChannelName name) base
            (channelGet (abgrChannelName name) base * P)), [])) ∧
    (∀ (name : String) (base : RawColor) (pol : Policy),
      transformBlacknessLightnessSaturationWhitenessAdjuster (some base)
          (Token.func name [Token.word "*", Token.space, Token.word s]) pol
        = Except.ok (some (channelSet (blswChannelName name) base
            (channelGet (blswChannelName name) base * P)), [])) ∧
    (∀ (base : RawColor) (pol : Policy),
      transformRGBAdjuster (some base)
          (Token.func "rgb" [Token.word "*", Token.space, Token.word s]) pol
        = Except.ok (some (Color.rgbSet base (Color.redGet base * P)
            (Color.greenGet base * P) (Color.blueGet base * P)), [])) ∧
    (∀ (base : RawColor) (w : ℚ), 100 < w →
      (Color.alphaSet base w).alphaQ = 100 ∧
      (Color.redSet base w).redQ = 100 ∧
      (Color.greenSet base w).greenQ = 100 ∧
      (Color.blueSet base w).blueQ = 100 ∧
      (Color.saturationSet base w).satQ = 100 ∧
      (Color.lightnessSet base w).lightQ = 100 ∧
      (Color.whitenessSet base w).whiteQ = 100 ∧
      (Color.blacknessSet base w).blackQ = 100) := by
  refine ⟨abgrTimes hp, blswTimes hp, rgbTimes hp, ?_⟩
  intro base w hw
  refine ⟨?_, ?_, ?_, ?_, ?_, ?_, ?_, ?_⟩
  · rw [alphaSet_alphaQ, clamp_of_ge_100 hw.le]
  · rw [redSet_redQ, clamp_of_ge_100 hw.le]
  · rw [greenSet_greenQ, clamp_of_ge_100 hw.le]
  · rw [blueSet_blueQ, clamp_of_ge_100 hw.le]
  · rw [saturationSet_satQ, clamp_of_ge_100 hw.le]
  · rw [lightnessSet_lightQ, clamp_of_ge_100 hw.le]
  · rw [whitenessSet_whiteQ, clamp_of_ge_100 hw.le]
  · rw [blacknessSet_blackQ, clamp_of_ge_100 hw.le]

/-- C10, witness: `red(* 50%)` on `rgb` channels `40 20 10` multiplies the
red channel by the raw 50 (clamping 40 * 50 = 2000 down to 100). -/
theorem C10_witness :
    parserUnit "50%" = some (50, "%") ∧ (100:ℚ) < 40 * 50 ∧
    (transformAlphaBlueGreenRedAdjuster (some (RawColor.rgb 40 20 10 0 50))
        (Token.func "red" [Token.word "*", Token.space, Token.word "50%"]) .uThrow
      = Except.ok (some (channelSet (abgrChannelName "red") (RawColor.rgb 40 20 10 0 50)
          (channelGet (abgrChannelName "red") (RawColor.rgb 40 20 10 0 50) * 50)), [])) ∧
    (Color.redSet (RawColor.rgb 40 20 10 0 50) (40 * 50)).redQ = 100 := by
  have h1 : parserUnitParts "50%" = some (false, ['5', '0'], [], "%") := by decide
  have h2 : assembleNumber false ['5', '0'] [] = 50 := by
    rw [assembleNumber]
    norm_num [show natOfDigits ['5', '0'] = 50 from by decide,
      show natOfDigits ([] : List Char) = 0 from by decide]
  have hp : parserUnit "50%" = some (50, "%") := parserUnit_concrete h1 h2
  exact ⟨hp, by norm_num,
    (C10_times_raw_percentage "50%" 50 hp).1 "red" (RawColor.rgb 40 20 10 0 50) .uThrow,
    ((C10_times_raw_percentage "50%" 50 hp).2.2.2 (RawColor.rgb 40 20 10 0 50) (40 * 50)
      (by norm_num)).2.1⟩

/-! ## Claim C1 -/

/-- C1, corrected.  On the outermost-failing input `color-mod(not-a-color)`
the three policies behave as follows, for every stringifier, custom
property table and gamma function: `throw` raises the unresolved error
carrying the offending token's text `not-a-color`; `warn` returns the
call-site tokens UNCHANGED but emits TWO warnings (the inner
`Expected a color` on `not-a-color` and the outer `Expected a valid
color` on `color-mod`), not one; `ignore` returns the tokens unchanged
with no diagnostic.  In every case the call site is either fully
replaced or left entirely as-is — here it is returned exactly as the
input tree. -/
theorem C1_unresolved_policy (p24 : ℚ → ℚ) (str : RawColor → String)
    (cp : List (String × List Token)) :
    (transformAST p24 20 ⟨.uThrow, str, false, cp⟩
        (Token.func "root" [Token.func "color-mod" [Token.word "not-a-color"]])
      = Except.error (.unresolved "not-a-color" "Expected a color")) ∧
    (transformAST p24 20 ⟨.uWarn, str, false, cp⟩
        (Token.func "root" [Token.func "color-mod" [Token.word "not-a-color"]])
      = Except.ok (Token.func "root" [Token.func "color-mod" [Token.word "not-a-color"]],
          [("not-a-color", "Expected a color"),
           ("color-mod", "Expected a valid color")])) ∧
    (transformAST p24 20 ⟨.uIgnore, str, false, cp⟩
        (Token.func "root" [Token.func "color-mod" [Token.word "not-a-color"]])
      = Except.ok (Token.func "root" [Token.func "color-mod" [Token.word "not-a-color"]],
          [])) :=
  ⟨rfl, rfl, rfl⟩

/-- C1, counterexample to "emits one warning": under the `warn` policy the
malformed `color-mod(not-a-color)` produces two warnings, one from the
inner color position and one from the outer `color-mod()` recognizer. -/
theorem C1_counterexample :
    transformAST (fun q => q) 20 ⟨.uWarn, color2rgbString, false, []⟩
        (Token.func "root" [Token.func "color-mod" [Token.word "not-a-color"]])
      = Except.ok (Token.func "root" [Token.func "color-mod" [Token.word "not-a-color"]],
          [("not-a-color", "Expected a color"),
           ("color-mod", "Expected a valid color")]) ∧
    ¬ ([("not-a-color", "Expected a color"),
        ("color-mod", "Expected a valid color")].length = 1) :=
  ⟨rfl, by decide⟩

/-! ## Claim C9 -/

/-- C9, code bug.  The claimed fallback substitution never happens: when a
`var()` references an absent custom property with a fallback, the
resolver raises a JavaScript `TypeError` instead.  A plain-word fallback
(`var(--absent, red)`) crashes at the guard `fallbackNode.nodes.length`
(reading `.length` of `undefined`), and a nested-function fallback that
passes the guard (`var(--absent, g(h(y)))`) crashes in the splice
`...fallbackNode.nodes[0].nodes[0]`, which spreads a non-iterable token
object.  A known custom property, by contrast, is inlined normally
(third conjunct), so the crash is specific to the fallback path. -/
theorem C9_var_fallback_crash :
    (transformVariables 20 [] [Token.func "var"
        [Token.word "--absent", Token.div ",", Token.space, Token.word "red"]]
      = Except.error .jsTypeErr) ∧
    (transformVariables 20 [] [Token.func "var"
        [Token.word "--absent", Token.div ",", Token.space,
         Token.func "g" [Token.func "h" [Token.word "y"]]]]
      = Except.error .jsTypeErr) ∧
    (transformVariables 20 [("--known", [Token.word "blue"])]
        [Token.func "var" [Token.word "--known"]]
      = Except.ok ([Token.word "blue"], [])) :=
  ⟨rfl, rfl, rfl⟩

/-! ## Claim C4 -/

theorem contrastRatioLoop_noop (p24 : ℚ → ℚ) (hwbC m : RawColor) (fuel : ℕ)
    (minW minB maxW maxB : ℚ)
    (h1 : 0 ≤ minW) (h2 : minW ≤ 100) (h3 : 0 ≤ minB) (h4 : minB ≤ 100)
    (h5 : 0 ≤ maxW) (h6 : maxW ≤ 100) (h7 : 0 ≤ maxB) (h8 : maxB ≤ 100) :
    contrastRatioLoop p24 hwbC (fuel + 1) minW minB maxW maxB m = some m := by
  have hg : ¬ (100 < |minW - maxW| ∨ 100 < |minB - maxB|) := by
    rintro (h | h)
    · exact absurd h (not_lt.2 (abs_le.2 ⟨by linarith, by linarith⟩))
    · exact absurd h (not_lt.2 (abs_le.2 ⟨by linarith, by linarith⟩))
  rw [contrastRatioLoop, if_neg hg]

theorem color2rgb_hwbWhite : color2rgb (RawColor.hwb 0 100 0 100) = RawColor.rgb 100 100 100 0 100 := by
  norm_num [color2rgb, hwb2rgb, hsl2rgb, hue2rgbChannel]

theorem color2rgb_hwbBlack : color2rgb (RawColor.hwb 0 0 100 100) = RawColor.rgb 0 0 0 0 100 := by
  norm_num [color2rgb, hwb2rgb, hsl2rgb, hue2rgbChannel]

theorem color2hwb_black : color2hwb (RawColor.rgb 0 0 0 0 100) = RawColor.hwb 0 0 100 100 := by
  norm_num [color2hwb, rgb2hwb, rgb2hue]

theorem rgb2luminance_zero (p24 : ℚ → ℚ) : rgb2luminance p24 0 0 0 = 0 := by
  norm_num [rgb2luminance, channel2luminance]

theorem rgb2luminance_hundred (p24 : ℚ → ℚ) :
    rgb2luminance p24 100 100 100 = p24 ((100 + 0.055) / 1.055) := by
  norm_num [rgb2luminance, channel2luminance]
  ring

theorem ratio_black_blackHwb (p24 : ℚ → ℚ) :
    colors2contrast p24 (RawColor.rgb 0 0 0 0 100) (RawColor.hwb 0 0 100 100) = 1 := by
  rw [colors2contrast, color2rgb_hwbBlack]
  norm_num [rgb2luminance, channel2luminance, RawColor.redQ, RawColor.greenQ, RawColor.blueQ,
    color2rgb]

theorem ratio_black_white (p24 : ℚ → ℚ) (hg : 7/40 < p24 ((100 + 0.055) / 1.055)) :
    4.5 < colors2contrast p24 (RawColor.rgb 0 0 0 0 100) (RawColor.hwb 0 100 0 100) := by
  rw [colors2contrast, color2rgb_hwbWhite]
  dsimp only [color2rgb, RawColor.redQ, RawColor.greenQ, RawColor.blueQ]
  rw [rgb2luminance_zero, rgb2luminance_hundred]
  rw [if_neg (by intro h; nlinarith [hg])]
  have hx : (p24 ((100 + 0.055) / 1.055) + 0.05) / ((0:ℚ) + 0.05)
      = 20 * p24 ((100 + 0.055) / 1.055) + 1 := by
    ring
  rw [hx]
  linarith [hg]

theorem contrast_black_full (p24 : ℚ → ℚ) (hg : 7/40 < p24 ((100 + 0.055) / 1.055)) (fuel : ℕ) :
    contrast p24 (fuel + 1) (RawColor.rgb 0 0 0 0 100) 100
      = some (RawColor.hwb 0 0 100 100) := by
  rw [contrast]
  rw [color2hwb_black]
  dsimp only [color2rgb, RawColor.redQ, RawColor.greenQ, RawColor.blueQ,
    RawColor.hueQ, RawColor.alphaQ, RawColor.whiteQ, RawColor.blackQ]
  rw [rgb2luminance_zero]
  rw [if_pos (by norm_num : (0:ℚ) < 0.5)]
  rw [if_pos (ratio_black_white p24 hg)]
  rw [colors2contrastRatioColor]
  dsimp only [RawColor.whiteQ, RawColor.blackQ]
  rw [contrastRatioLoop_noop p24 _ _ fuel 0 100 100 0 (by norm_num) (by norm_num)
    (by norm_num) (by norm_num) (by norm_num) (by norm_num) (by norm_num) (by norm_num)]
  show some (blend (RawColor.hwb 0 100 0 100) (RawColor.hwb 0 0 100 100) 100 .hwb false) = _
  norm_num [blend, color2hwb, RawColor.hueQ, RawColor.whiteQ, RawColor.blackQ, RawColor.alphaQ]

/-- C4, code bug.  The binary search of `colors2contrastRatioColor` can
never run: its guard demands the whiteness or blackness bounds to differ
by MORE than 100, impossible for channel values in `[0, 100]`, so the
loop immediately returns its `modifiedHWB` seed — which is the BASE
color's own hwb copy, not a maximum-contrast color.  Consequently
`contrast()` at percentage 100 on black blends all the way back to black
itself: the result's contrast ratio against the base is 1, far below the
promised 4.5, even though white — a color of the same colorspace — has
ratio above 4.5 against black (so the claim's near-midtone escape clause
does not apply).  The hypothesis only pins the one transcendental value
`Math.pow((100+0.055)/1.055, 2.4) > 0.175`, true of the real power
function (the value is about 55000). -/
theorem C4_contrast_threshold_bug (p24 : ℚ → ℚ)
    (hg : 7/40 < p24 ((100 + 0.055) / 1.055)) :
    (∀ (hwbC m : RawColor) (fuel : ℕ) (minW minB maxW maxB : ℚ),
      0 ≤ minW → minW ≤ 100 → 0 ≤ minB → minB ≤ 100 →
      0 ≤ maxW → maxW ≤ 100 → 0 ≤ maxB → maxB ≤ 100 →
      contrastRatioLoop p24 hwbC (fuel + 1) minW minB maxW maxB m = some m) ∧
    (∀ fuel : ℕ, contrast p24 (fuel + 1) (RawColor.rgb 0 0 0 0 100) 100
      = some (RawColor.hwb 0 0 100 100)) ∧
    colors2contrast p24 (RawColor.rgb 0 0 0 0 100) (RawColor.hwb 0 0 100 100) = 1 ∧
    4.5 < colors2contrast p24 (RawColor.rgb 0 0 0 0 100) (RawColor.hwb 0 100 0 100) ∧
    ¬ ((4.5:ℚ) ≤ 1) :=
  ⟨fun hwbC m fuel minW minB maxW maxB h1 h2 h3 h4 h5 h6 h7 h8 =>
      contrastRatioLoop_noop p24 hwbC m fuel minW minB maxW maxB h1 h2 h3 h4 h5 h6 h7 h8,
    contrast_black_full p24 hg,
    ratio_black_blackHwb p24,
    ratio_black_white p24 hg,
    by norm_num⟩

/-- C4, witness: at the placeholder gamma `fun _ => 1` (which satisfies
the transcendental bound) and fuel 1, `contrast(black, 100)` returns
black's own hwb form, and the loop is a no-op on in-range bounds. -/
theorem C4_witness :
    ((7:ℚ)/40 < (fun _ => (1:ℚ)) ((100 + 0.055) / 1.055)) ∧
    contrastRatioLoop (fun _ => (1:ℚ)) (RawColor.hwb 0 0 100 100) 1 0 100 100 0
      (RawColor.hwb 0 5 5 100) = some (RawColor.hwb 0 5 5 100) ∧
    contrast (fun _ => (1:ℚ)) 1 (RawColor.rgb 0 0 0 0 100) 100
      = some (RawColor.hwb 0 0 100 100) := by
  have hg : (7:ℚ)/40 < (fun _ => (1:ℚ)) ((100 + 0.055) / 1.055) := by norm_num
  exact ⟨hg,
    (C4_contrast_threshold_bug (fun _ => (1:ℚ)) hg).1 (RawColor.hwb 0 0 100 100)
      (RawColor.hwb 0 5 5 100) 0 0 100 100 0 (by norm_num) (by norm_num) (by norm_num)
      (by norm_num) (by norm_num) (by norm_num) (by norm_num) (by norm_num),
    (C4_contrast_threshold_bug (fun _ => (1:ℚ)) hg).2.1 0⟩

end ColorMod
